import Mathlib

/-!
# Reentrant transaction context (commonlib/database/context.go)

A shallow embedding of the transaction-context helper of the Go microservice
template, together with the parts of the Go standard library it relies on
(`context.WithValue`, `fmt.Errorf` with `%w`, `errors.Is`).

* A `context.Context` is a chain of key/value bindings over a root.
* Pointers (`*sqlx.DB`, `*sqlx.Tx`, `*MockConnection`) are addresses (`Nat`).
* The database driver is external: its answers are given by a `Driver`, and
  every call made to it is recorded in the `trace` of the `World`.
* Go code that may panic returns an `Outcome`.
-/

namespace Database

/-! ## Go errors -/

/-- A non-nil Go `error` value. `plain` is an error without an `Unwrap` method
(for instance one made by `errors.New`), identified by `id`; `wrapError` is the
value `fmt.Errorf` builds for one `%w` verb and `wrapErrors` the value it
builds for two of them, in the order of the arguments. A nil `error` is `none : Option GoError`. -/
inductive GoError where
  | plain (id : Nat) (text : String)
  | wrapError (msg : String) (err : GoError)
  | wrapErrors (msg : String) (first : GoError) (second : GoError)
  deriving DecidableEq, Repr

/-- The method `Error()` of an error value. -/
def GoError.Error : GoError → String
  | .plain _ text => text
  | .wrapError msg _ => msg
  | .wrapErrors msg _ _ => msg

/-- The loop `is` of package `errors`: the target is found when it equals the
error itself or an error reached from it through `Unwrap`, depth first. -/
def errorsIsLoop : GoError → GoError → Bool
  | .plain id text, target => decide (GoError.plain id text = target)
  | .wrapError msg err, target =>
      decide (GoError.wrapError msg err = target) || errorsIsLoop err target
  | .wrapErrors msg first second, target =>
      decide (GoError.wrapErrors msg first second = target)
        || errorsIsLoop first target || errorsIsLoop second target

/-- The function `errors.Is(err, target)`. When either argument is nil the answer is
`err == target`. -/
def errorsIs : Option GoError → Option GoError → Bool
  | some err, some target => errorsIsLoop err target
  | none, none => true
  | _, _ => false

/-! ## Contexts -/

/-- Keys under which values are stored in a context. The first two are the
unexported key types of package `database`, the third the unexported key of
package `testhelper`; `other` stands for every key of any other package. -/
inductive Key where
  | ctxConnectionKey
  | ctxTransactionKey
  | mockRequestKey
  | other (n : Nat)
  deriving DecidableEq, Repr

/-- Non-nil values of type `any` stored in a context. -/
inductive Value where
  | sqlxDB (p : Nat)
  | mockConnection (p : Nat)
  | sqlxTx (p : Nat)
  | bool (b : Bool)
  | other (n : Nat)
  deriving DecidableEq, Repr

/-- A non-nil `context.Context`: a root context or a context derived with
`context.WithValue(parent, key, val)`. -/
inductive Context where
  | background
  | withValue (parent : Context) (key : Key) (val : Value)
  deriving DecidableEq, Repr

/-- The method `ctx.Value(key)`: the nearest enclosing binding of `key`, or nil
(`none`) when there is none. -/
def Context.Value : Context → Key → Option Value
  | .background, _ => none
  | .withValue parent key val, k => if k = key then some val else parent.Value k

/-- A value of the interface type `Connection`: what `RetrieveFromContext`
returns. -/
inductive Connection where
  | db (p : Nat)
  | mock (p : Nat)
  | tx (p : Nat)
  deriving DecidableEq, Repr

/-! ## The world: driver calls and panics -/

/-- A call made to the database driver. -/
inductive Event where
  | beginx (db : Nat)
  | commit (tx : Nat)
  | rollback (tx : Nat)
  deriving DecidableEq, Repr

/-- The state of everything outside the functions modelled here: the driver
calls issued so far (oldest first) and the rest of the program state. -/
structure World where
  trace : List Event
  app : Nat
  deriving DecidableEq, Repr

/-- Record one more driver call. -/
def World.log (w : World) (e : Event) : World :=
  { w with trace := w.trace ++ [e] }

/-- The database driver. Each answer may depend on the whole state of the
world at the time of the call. `beginx` answers with a new transaction or an
error, `commit` and `rollback` with nil (`none`) or an error. -/
structure Driver where
  beginx : Nat → World → Except GoError Nat
  commit : Nat → World → Option GoError
  rollback : Nat → World → Option GoError

/-- The result of running Go code: it returns a value or it panics. -/
inductive Outcome (α : Type) where
  | ret (a : α) (w : World)
  | panic (msg : String) (w : World)
  deriving DecidableEq, Repr

/-- An operation passed to `WithTransactionReturning`: a Go function
`func(ctx context.Context) (ReturnValue, error)`. Its argument is an interface
value and so may be nil (`none`). -/
abbrev Operation (α : Type) := Option Context → World → Outcome (α × Option GoError)

/-- An operation passed to `WithTransaction`: `func(ctx context.Context) error`. -/
abbrev ErrOperation := Option Context → World → Outcome (Option GoError)

/-! ## testhelper.IsMockContext -/

/-- Go function `IsMockContext` reports whether the context is from a mock HTTP request. -/
def IsMockContext (ctx : Context) : Bool :=
  (ctx.Value Key.mockRequestKey).isSome

/-! ## database/context.go -/

/-- Go function `CreateDerivativeContext` embeds the database in a child context unless a
connection is already present. -/
def CreateDerivativeContext (ctx : Context) (db : Nat) : Context :=
  if (ctx.Value Key.ctxConnectionKey).isSome then ctx
  else Context.withValue ctx Key.ctxConnectionKey (Value.sqlxDB db)

/-- Go function `CreateDerivativeMockContext` attaches a mock connection instead of a real
one. -/
def CreateDerivativeMockContext (ctx : Context) (mockConnection : Nat) : Context :=
  if (ctx.Value Key.ctxConnectionKey).isSome then ctx
  else Context.withValue ctx Key.ctxConnectionKey (Value.mockConnection mockConnection)

/-- The message of the panic raised by `RetrieveFromContext`. -/
def noConnectionMsg : String :=
  "Database connection was not present in context! Make sure the database context middleware is installed."

/-- Go function `RetrieveFromContext` extracts the current database handle. `Except.error`
is a panic: either the explicit one at the end of the function or the failed
type assertion `txConnection.(*sqlx.Tx)`. -/
def RetrieveFromContext (ctx : Context) : Except String Connection :=
  match ctx.Value Key.ctxTransactionKey with
  | some txConnection =>
      match txConnection with
      | .sqlxTx p => .ok (Connection.tx p)
      | _ => .error "interface conversion: value is not *sqlx.Tx"
  | none =>
      match ctx.Value Key.ctxConnectionKey with
      | some (.sqlxDB p) => .ok (Connection.db p)
      | some (.mockConnection p) => .ok (Connection.mock p)
      | _ => .error noConnectionMsg

/-- The struct `preparedTransactionContext`. A nil `*sqlx.Tx` and a nil
`context.Context` are `none`. -/
structure preparedTransactionContext where
  transaction : Option Nat
  passedContext : Option Context
  isNestedTransaction : Bool
  isMockContext : Bool
  deriving DecidableEq, Repr

/-- The zero value of `preparedTransactionContext`
(`var preparedTxContext preparedTransactionContext`). -/
def preparedTransactionContext.zero : preparedTransactionContext :=
  { transaction := none, passedContext := none, isNestedTransaction := false,
    isMockContext := false }

/-- Go function `prepareTransactionContext` looks for an active transaction and starts one
when there is none. It returns the prepared context and an error. -/
def prepareTransactionContext (d : Driver) (parentCtx : Context) (w : World) :
    Outcome (preparedTransactionContext × Option GoError) :=
  let preparedTxContext := preparedTransactionContext.zero
  if IsMockContext parentCtx then
    .ret ({ preparedTxContext with passedContext := some parentCtx, isMockContext := true },
      none) w
  else
    match RetrieveFromContext parentCtx with
    | .error msg => .panic msg w
    | .ok (.tx rawCxn) =>
        .ret ({ preparedTxContext with
                  transaction := some rawCxn
                  isNestedTransaction := true
                  passedContext := some parentCtx }, none) w
    | .ok (.db rawCxn) =>
        match d.beginx rawCxn w with
        | .error txBeginErr => .ret (preparedTxContext, some txBeginErr) (w.log (.beginx rawCxn))
        | .ok newTx =>
            .ret ({ preparedTxContext with
                      transaction := some newTx
                      passedContext :=
                        some (Context.withValue parentCtx Key.ctxTransactionKey
                          (Value.sqlxTx newTx)) }, none) (w.log (.beginx rawCxn))
    | .ok (.mock _) => .ret (preparedTxContext, none) w

/-- The error built by
`fmt.Errorf("rollback failed when operation returned an error (%w): %w", operationError, rollbackErr)`. -/
def rollbackFailedError (operationError rollbackErr : GoError) : GoError :=
  .wrapErrors
    ("rollback failed when operation returned an error (" ++ operationError.Error ++ "): "
      ++ rollbackErr.Error)
    operationError rollbackErr

/-- The message of the panic raised by a method call through a nil pointer. -/
def nilDerefMsg : String :=
  "runtime error: invalid memory address or nil pointer dereference"

/-- Go function `rollbackOnFailureOrCommit` finalizes the transaction when the prepared
context is the one that started it. -/
def rollbackOnFailureOrCommit (d : Driver) (operationError : Option GoError)
    (preparedCtx : preparedTransactionContext) (w : World) : Outcome (Option GoError) :=
  if preparedCtx.isMockContext then
    .ret operationError w
  else
    if !preparedCtx.isNestedTransaction then
      match operationError with
      | some opErr =>
          match preparedCtx.transaction with
          | none => .panic nilDerefMsg w
          | some tx =>
              match d.rollback tx w with
              | some rollbackErr =>
                  .ret (some (rollbackFailedError opErr rollbackErr)) (w.log (.rollback tx))
              | none => .ret operationError (w.log (.rollback tx))
      | none =>
          match preparedCtx.transaction with
          | none => .panic nilDerefMsg w
          | some tx => .ret (d.commit tx w) (w.log (.commit tx))
    else
      .ret operationError w

/-- Go function `WithTransaction` runs `operation` in a transaction that is committed when
the operation returns no error and rolled back otherwise. -/
def WithTransaction (d : Driver) (ctx : Context) (operation : ErrOperation) (w : World) :
    Outcome (Option GoError) :=
  match prepareTransactionContext d ctx w with
  | .panic msg w1 => .panic msg w1
  | .ret (_, some prepareErr) w1 => .ret (some prepareErr) w1
  | .ret (preparedCtx, none) w1 =>
      match operation preparedCtx.passedContext w1 with
      | .panic msg w2 => .panic msg w2
      | .ret operationError w2 => rollbackOnFailureOrCommit d operationError preparedCtx w2

/-- Go function `WithTransactionReturning` is `WithTransaction` for an operation that also
returns a value. The zero value of `ReturnValue` is `default`. -/
def WithTransactionReturning {ReturnValue : Type} [Inhabited ReturnValue] (d : Driver)
    (ctx : Context) (operation : Operation ReturnValue) (w : World) :
    Outcome (ReturnValue × Option GoError) :=
  match prepareTransactionContext d ctx w with
  | .panic msg w1 => .panic msg w1
  | .ret (_, some prepareErr) w1 => .ret (default, some prepareErr) w1
  | .ret (preparedCtx, none) w1 =>
      match operation preparedCtx.passedContext w1 with
      | .panic msg w2 => .panic msg w2
      | .ret (returnValue, operationErr) w2 =>
          match rollbackOnFailureOrCommit d operationErr preparedCtx w2 with
          | .panic msg w3 => .panic msg w3
          | .ret err w3 => .ret (returnValue, err) w3

/-! ## Nested calls -/

/-- Apply a function to the value a piece of Go code returns. -/
def Outcome.map {α β : Type} (f : α → β) : Outcome α → Outcome β
  | .ret a w => .ret (f a) w
  | .panic msg w => .panic msg w

/-- The two call shapes of the transaction helper. -/
inductive CallShape where
  | errorOnly
  | returning
  deriving DecidableEq, Repr

/-- A chain of nested calls, outermost first: every level calls
`WithTransaction` (`errorOnly`) or `WithTransactionReturning` (`returning`,
with payload `payload`) on the context it was passed, and the operation of the
innermost level is `leaf`. Calling either function with a nil context panics in
`IsMockContext`. -/
def nestedCalls {α : Type} [Inhabited α] (d : Driver) (payload : α) (leaf : ErrOperation) :
    List CallShape → ErrOperation
  | [] => leaf
  | .errorOnly :: rest => fun c w =>
      match c with
      | none => .panic nilDerefMsg w
      | some ctx => WithTransaction d ctx (nestedCalls d payload leaf rest) w
  | .returning :: rest => fun c w =>
      match c with
      | none => .panic nilDerefMsg w
      | some ctx =>
          (WithTransactionReturning d ctx
            (fun c1 w1 => (nestedCalls d payload leaf rest c1 w1).map (fun e => (payload, e)))
            w).map Prod.snd

/-- The context an owning call passes to its operation: the caller's context
with the new transaction stored under `ctxTransactionKey`. -/
def transactionContext (parentCtx : Context) (newTx : Nat) : Context :=
  Context.withValue parentCtx Key.ctxTransactionKey (Value.sqlxTx newTx)

/-! ## Sample data for the concrete checks -/

/-- A driver whose `Beginx` always yields transaction 7 (or fails) and whose
`Commit` and `Rollback` succeed or fail as the flags say. -/
def sampleDriver (beginOk commitOk rollbackOk : Bool) : Driver where
  beginx := fun _ _ => if beginOk then .ok 7 else .error (.plain 4 "begin failed")
  commit := fun _ _ => if commitOk then none else some (.plain 2 "commit failed")
  rollback := fun _ _ => if rollbackOk then none else some (.plain 3 "rollback failed")

/-- A request context with the database connection 1 attached and one
unrelated value. -/
def sampleCtx : Context :=
  CreateDerivativeContext (Context.withValue .background (.other 5) (.other 6)) 1

/-- An empty world. -/
def emptyWorld : World := { trace := [], app := 0 }

/-- An operation that succeeds with the value 42. -/
def okOperation : Operation Nat := fun _ w => .ret (42, none) w

/-- An operation that succeeds. -/
def okErrOperation : ErrOperation := fun _ w => .ret none w

/-- An operation that fails with the error `plain 1`. -/
def failingErrOperation : ErrOperation := fun _ w => .ret (some (.plain 1 "operation failed")) w

/-- A context in which a transaction is already active. -/
def sampleTxCtx : Context := transactionContext sampleCtx 7

/-- A mock request context with no database handle attached. -/
def sampleMockCtx : Context := Context.withValue .background .mockRequestKey (.bool true)

/-- An operation that panics: it must never run. -/
def panickingOperation : Operation Nat := fun _ w => .panic "must not be called" w

/-- An error-only operation that panics. -/
def panickingErrOperation : ErrOperation := fun _ w => .panic "must not be called" w

end Database

/-!
# Configuration registry (commonlib/config)

The registry builder collects the options of the application, checks them
against a data source (the environment, or a map in tests) and yields the
registry through which the options are read.
-/

namespace Config

open Database (GoError)

/-! ## config/option.go -/

/-- The struct `Option` of package `config` (named `ConfigOption` here, as
`Option` is taken). A nil `validationFn` is `none`; a validation function
answers nil (`none`) or an error. -/
structure ConfigOption where
  envName : String
  required : Bool
  validationFn : Option (String → Option GoError)

/-- Go function `NewOption` constructs an option with no validation function. -/
def NewOption (envName : String) (required : Bool) : ConfigOption :=
  { envName := envName, required := required, validationFn := none }

/-- Go function `NewValidatedOption` constructs an option with a validation function. -/
def NewValidatedOption (envName : String) (required : Bool)
    (validationFn : String → Option GoError) : ConfigOption :=
  { envName := envName, required := required, validationFn := some validationFn }

/-- The method `VariableName` of an option. -/
def ConfigOption.VariableName (opt : ConfigOption) : String :=
  opt.envName

/-! ## config/registry_source.go -/

/-- The interface `registrySource`: `getValue(variableName)` answers with a
value and whether the variable is present. -/
structure registrySource where
  getValue : String → String × Bool

/-- The source `environmentRegistrySource`: `os.LookupEnv` on the environment
of the process, given as `environ`. -/
def environmentRegistrySource (environ : String → Option String) : registrySource where
  getValue := fun variableName =>
    match environ variableName with
    | some value => (value, true)
    | none => ("", false)

/-- The source `mockRegistrySource`: a Go map, given as its list of entries.
Reading a key that is not in the map yields the zero string and `false`. -/
def mockRegistrySource (src : List (String × String)) : registrySource where
  getValue := fun variableName =>
    match src.lookup variableName with
    | some value => (value, true)
    | none => ("", false)

/-! ## config/registry.go -/

/-- The struct `RegistryBuilder`. The key set of the map `registeredOptions` is
a list of names; `dataSource` is the interface value set by the constructors. -/
structure RegistryBuilder where
  registeredOptions : List String
  allOptions : List ConfigOption
  dataSource : registrySource

/-- Go function `NewRegistryBuilder` constructs a builder over the environment. -/
def NewRegistryBuilder (environ : String → Option String) : RegistryBuilder :=
  { registeredOptions := [], allOptions := [], dataSource := environmentRegistrySource environ }

/-- Go function `NewMockRegistryBuilder` constructs a builder over the passed map; nil
(`none`) stands for an empty environment. -/
def NewMockRegistryBuilder (environmentVariables : Option (List (String × String))) :
    RegistryBuilder :=
  let environmentVariables :=
    match environmentVariables with
    | none => []
    | some m => m
  { registeredOptions := [], allOptions := [],
    dataSource := mockRegistrySource environmentVariables }

/-- The method `AddOption`: `Except.error` is the panic raised when the name is
already a key of `registeredOptions`; otherwise the name is added to the map
and the option appended to `allOptions`. -/
def RegistryBuilder.AddOption (rb : RegistryBuilder) (option : ConfigOption) :
    Except String RegistryBuilder :=
  if option.envName ∈ rb.registeredOptions then
    .error ("Registering option failed, nother option with the same name exists: "
      ++ option.envName)
  else
    .ok { rb with
            registeredOptions := rb.registeredOptions ++ [option.envName]
            allOptions := rb.allOptions ++ [option] }

/-- The method `AddOptions`: `AddOption` on every option, in order. -/
def RegistryBuilder.AddOptions (rb : RegistryBuilder) :
    List ConfigOption → Except String RegistryBuilder
  | [] => .ok rb
  | option :: rest =>
      match rb.AddOption option with
      | .error msg => .error msg
      | .ok rb1 => rb1.AddOptions rest

/-- The struct `InvalidVariable`. -/
structure InvalidVariable where
  Name : String
  ValidationError : GoError
  deriving DecidableEq, Repr

/-- The struct `ErrIncorrectConfiguration`; its zero value has two nil slices. -/
structure ErrIncorrectConfiguration where
  MissingRequiredVariables : List String
  InvalidVariables : List InvalidVariable
  deriving DecidableEq, Repr

/-- The method `errorsPresent`. -/
def ErrIncorrectConfiguration.errorsPresent (err : ErrIncorrectConfiguration) : Bool :=
  decide (err.MissingRequiredVariables.length > 0) || decide (err.InvalidVariables.length > 0)

/-- A non-nil `error` in the hands of a caller of package `config`: a value of
type `ErrIncorrectConfiguration`, or an error of another type. -/
inductive ConfigError where
  | incorrectConfiguration (issues : ErrIncorrectConfiguration)
  | foreign (err : GoError)
  deriving DecidableEq, Repr

/-- The call `errors.As(err, &target)` with `target` of type
`ErrIncorrectConfiguration`: `some` is the value assigned to the target, `none`
the answer `false`. The errors of other types modelled here never unwrap to a
configuration error. -/
def errorsAsIncorrectConfiguration : Option ConfigError → Option ErrIncorrectConfiguration
  | some (.incorrectConfiguration issues) => some issues
  | _ => none

/-- The struct `Registry`. Its zero value `Registry{}` has a nil map and a nil
data source (`none`). -/
structure Registry where
  registeredOptions : List String
  dataSource : Option registrySource

/-- The zero value `Registry{}`. -/
def Registry.zero : Registry :=
  { registeredOptions := [], dataSource := none }

/-- The body of the loop of `VerifyAndBuild` for one option. -/
def verifyOption (dataSource : registrySource) (variableIssues : ErrIncorrectConfiguration)
    (option : ConfigOption) : ErrIncorrectConfiguration :=
  let (optionValue, optionPresent) := dataSource.getValue option.envName
  let variableIssues :=
    if option.required && !optionPresent then
      { variableIssues with
          MissingRequiredVariables := variableIssues.MissingRequiredVariables ++ [option.envName] }
    else variableIssues
  match optionPresent, option.validationFn with
  | true, some validationFn =>
      match validationFn optionValue with
      | some validationErr =>
          { variableIssues with
              InvalidVariables := variableIssues.InvalidVariables ++
                [{ Name := option.envName, ValidationError := validationErr }] }
      | none => variableIssues
  | _, _ => variableIssues

/-- The method `VerifyAndBuild`: the registry and the error it returns. -/
def RegistryBuilder.VerifyAndBuild (rb : RegistryBuilder) : Registry × Option ConfigError :=
  let variableIssues :=
    rb.allOptions.foldl (verifyOption rb.dataSource)
      { MissingRequiredVariables := [], InvalidVariables := [] }
  if variableIssues.errorsPresent then
    (Registry.zero, some (.incorrectConfiguration variableIssues))
  else
    ({ registeredOptions := rb.registeredOptions, dataSource := some rb.dataSource }, none)

/-- The method `Get`: `Except.error` is a panic, either the explicit one for an
unregistered option or the call of `getValue` on a nil data source. -/
def Registry.Get (reg : Registry) (option : ConfigOption) : Except String (String × Bool) :=
  if option.envName ∈ reg.registeredOptions then
    match reg.dataSource with
    | some dataSource => .ok (dataSource.getValue option.envName)
    | none => .error Database.nilDerefMsg
  else
    .error ("Option " ++ option.envName
      ++ " is not registered! Make sure to register it when building the option registry.")

/-- The method `GetRequired`: panics for an option that is not required, and
otherwise returns the value `Get` returns. -/
def Registry.GetRequired (reg : Registry) (option : ConfigOption) : Except String String :=
  if !option.required then
    .error ("Non-required option " ++ option.envName
      ++ " was passed to Registry.GetRequired")
  else
    match reg.Get option with
    | .error msg => .error msg
    | .ok (value, _) => .ok value

/-! ## The lists named by the configuration claims -/

/-- The names of the options that are required and absent from the data source,
in the order of the options. -/
def requiredAbsentNames (dataSource : registrySource) (options : List ConfigOption) :
    List String :=
  (options.filter (fun o => o.required && !(dataSource.getValue o.envName).2)).map
    (fun o => o.envName)

/-- The entry of an option that is present, has a validation function and is
rejected by it; `none` for every other option. -/
def rejectedVariable (dataSource : registrySource) (o : ConfigOption) : Option InvalidVariable :=
  if (dataSource.getValue o.envName).2 then
    match o.validationFn with
    | some validationFn =>
        (validationFn (dataSource.getValue o.envName).1).map
          (fun validationErr => { Name := o.envName, ValidationError := validationErr })
    | none => none
  else none

/-- One entry for each option that is present, validated and rejected, in the
order of the options. -/
def rejectedVariables (dataSource : registrySource) (options : List ConfigOption) :
    List InvalidVariable :=
  options.filterMap (rejectedVariable dataSource)

/-- A builder as the program can hold one: made by a constructor over
`dataSource`, followed by successful `AddOption` calls for `options`, in order. -/
def RegistryBuilder.BuiltFrom (rb : RegistryBuilder) (dataSource : registrySource)
    (options : List ConfigOption) : Prop :=
  RegistryBuilder.AddOptions
    { registeredOptions := [], allOptions := [], dataSource := dataSource } options = .ok rb

/-! ## Sample data for the concrete checks -/

/-- A required option without validation. -/
def myOption : ConfigOption := NewOption "MY_OPTION" true

/-- An optional option without validation. -/
def otherOption : ConfigOption := NewOption "OTHER_OPTION" false

/-- A required option that accepts the value chocolate only. -/
def chocolateOption : ConfigOption :=
  NewValidatedOption "MUST_BE_CHOCOLATE" true
    (fun value => if value = "chocolate" then none else some (.plain 9 "must be a valid value"))

/-- An optional option whose validation function rejects every value. -/
def notHereOption : ConfigOption :=
  NewValidatedOption "NOT_HERE" false (fun _ => some (.plain 8 "always rejected"))

/-- An environment in which `MUST_BE_CHOCOLATE` is vanilla and `OTHER_OPTION`
is set; `MY_OPTION` and `NOT_HERE` are absent. -/
def sampleVariables : List (String × String) :=
  [("MUST_BE_CHOCOLATE", "vanilla"), ("OTHER_OPTION", "abcde")]

/-- The four sample options registered over the sample environment. -/
def failingBuilder : RegistryBuilder :=
  { registeredOptions := ["MY_OPTION", "OTHER_OPTION", "MUST_BE_CHOCOLATE", "NOT_HERE"],
    allOptions := [myOption, otherOption, chocolateOption, notHereOption],
    dataSource := mockRegistrySource sampleVariables }

/-- The two optional sample options registered over the sample environment. -/
def passingBuilder : RegistryBuilder :=
  { registeredOptions := ["OTHER_OPTION", "NOT_HERE"],
    allOptions := [otherOption, notHereOption],
    dataSource := mockRegistrySource sampleVariables }

end Config

/-!
# Connection pool settings (commonlib/database/connection.go)
-/

namespace Database

/-- The struct `OptionalSettings`; a nil `*int` is `none`. -/
structure OptionalSettings where
  Port : Option Int
  MaxOpenConnections : Option Int
  MaxIdleConnections : Option Int
  deriving DecidableEq, Repr

/-- The struct `Config` of package `database`. -/
structure Config where
  Username : String
  Password : String
  Host : String
  Schema : String
  OptionalSettings : OptionalSettings
  deriving DecidableEq, Repr

/-- The handle `*sqlx.DB` as `Connect` leaves it: the data source name given to
`sqlx.Open` and the arguments of the calls `SetConnMaxLifetime` (in minutes),
`SetMaxIdleConns` and `SetMaxOpenConns`. -/
structure Pool where
  dataSourceName : String
  connMaxLifetimeMinutes : Nat
  maxIdleConns : Int
  maxOpenConns : Int
  deriving DecidableEq, Repr

/-- Go function `Connect` connects to the database using the provided configuration.
`openErr` is the error `sqlx.Open` answers with; `Except.error` is a panic, here
the dereference of a nil `*int`. -/
def Connect (config : Config) (openErr : Option GoError) :
    Except String (Option Pool × Option GoError) :=
  let dbHost :=
    match config.OptionalSettings.Port with
    | some port => config.Host ++ ":" ++ toString port
    | none => config.Host
  match openErr with
  | some connectErr =>
      .ok (none, some (.wrapError
        ("failed to connect to database with given credentials (user " ++ config.Username
          ++ ", host " ++ dbHost ++ ", schema " ++ config.Schema ++ "): " ++ connectErr.Error)
        connectErr))
  | none =>
      let db : Pool :=
        { dataSourceName :=
            config.Username ++ ":" ++ config.Password ++ "@tcp(" ++ dbHost ++ ")/"
              ++ config.Schema,
          connMaxLifetimeMinutes := 3, maxIdleConns := 0, maxOpenConns := 0 }
      let db :=
        match config.OptionalSettings.MaxIdleConnections with
        | some maxIdle => { db with maxIdleConns := maxIdle }
        | none => { db with maxIdleConns := 5 }
      match config.OptionalSettings.MaxOpenConnections with
      | some _ =>
          match config.OptionalSettings.MaxIdleConnections with
          | some maxIdle => .ok (some { db with maxOpenConns := maxIdle }, none)
          | none => .error nilDerefMsg
      | none => .ok (some { db with maxOpenConns := 20 }, none)

/-- A context with the mock connection 9 attached by
`CreateDerivativeMockContext`; it is not a mock request context. -/
def mockConnectionCtx : Context :=
  CreateDerivativeMockContext .background 9

/-- An operation that tells whether it was handed a nil context: it panics with
a message of its own on nil and succeeds otherwise. -/
def nilProbeOperation : ErrOperation := fun c w =>
  match c with
  | none => .panic "operation received a nil context" w
  | some _ => .ret none w

/-- A configuration with the given pool limits and nothing else optional. -/
def sampleConfig (maxOpen maxIdle : Option Int) : Config :=
  { Username := "user", Password := "secret", Host := "localhost", Schema := "greetings",
    OptionalSettings := { Port := none, MaxOpenConnections := maxOpen,
                          MaxIdleConnections := maxIdle } }

end Database

/-!
# Nullable values (commonlib/types/nullable.go)
-/

namespace Types

open Database (GoError)

/-- The struct `Nullable[T]`. -/
structure Nullable (T : Type) where
  Value : T
  IsPresent : Bool
  deriving DecidableEq, Repr

/-- Package `encoding/json` for the type `T`: `Marshal v` is the result of
`json.Marshal(v)` (the bytes, or the error next to nil bytes), and
`Unmarshal bytes` is what `json.Unmarshal(bytes, &zeroValue)` leaves in a variable
that held the zero value of `T`, or the error it returns. -/
structure JSONCodec (T : Type) where
  Marshal : T → Except GoError String
  Unmarshal : String → Except GoError T

/-- The method `UnmarshalJSON`: the receiver after the call and the error
returned. -/
def Nullable.UnmarshalJSON {T : Type} (json : JSONCodec T) (nullable : Nullable T)
    (bytes : String) : Nullable T × Option GoError :=
  if bytes ≠ "null" then
    match json.Unmarshal bytes with
    | .error unmarshalErr => (nullable, some unmarshalErr)
    | .ok zeroValue => ({ nullable with Value := zeroValue, IsPresent := true }, none)
  else
    (nullable, none)

/-- The method `MarshalJSON`. -/
def Nullable.MarshalJSON {T : Type} (json : JSONCodec T) (nullable : Nullable T) :
    Except GoError String :=
  if !nullable.IsPresent then
    .ok "null"
  else
    json.Marshal nullable.Value

/-- Package `encoding/json` for `bool`: the literals `true` and `false`; the
literal `null` has no effect on a `bool`. -/
def boolCodec : JSONCodec Bool where
  Marshal := fun v => .ok (if v then "true" else "false")
  Unmarshal := fun bytes =>
    if bytes = "true" then .ok true
    else if bytes = "false" then .ok false
    else if bytes = "null" then .ok false
    else .error (.plain 300 "json: cannot unmarshal value into Go value of type bool")

/-- Package `encoding/json` for `*bool` (a nil pointer is `none`): a nil pointer
is encoded as `null`, and `null` decodes to a nil pointer. -/
def boolPointerCodec : JSONCodec (Option Bool) where
  Marshal := fun v =>
    match v with
    | none => .ok "null"
    | some b => .ok (if b then "true" else "false")
  Unmarshal := fun bytes =>
    if bytes = "null" then .ok none
    else if bytes = "true" then .ok (some true)
    else if bytes = "false" then .ok (some false)
    else .error (.plain 300 "json: cannot unmarshal value into Go value of type bool")

end Types

/-!
# Validation rules (github.com/jellydator/validation)

The two rules of the validation library that the options and request bodies
below use, on string values.
-/

namespace Validation

open Database (GoError)

/-- The error of a rule: `validation.ErrorObject` with its code and message. -/
structure ErrorObject where
  code : String
  message : String
  deriving DecidableEq, Repr

/-- The library error `ErrRequired`. -/
def ErrRequired : ErrorObject :=
  { code := "validation_required", message := "cannot be blank" }

/-- The library error `ErrInInvalid`. -/
def ErrInInvalid : ErrorObject :=
  { code := "validation_in_invalid", message := "must be a valid value" }

/-- A validation rule: `validation.Required`, or `validation.In(elements...)`
with the error it reports. -/
inductive Rule where
  | required
  | inRule (elements : List String) (err : ErrorObject)
  deriving DecidableEq, Repr

/-- The rule `validation.Required`. -/
def Required : Rule := .required

/-- The rule `validation.In(elements...)`. -/
def In (elements : List String) : Rule := .inRule elements ErrInInvalid

/-- The method `Error(message)` of the rule `In`: the same rule with another
message. -/
def Rule.Error (r : Rule) (message : String) : Rule :=
  match r with
  | .required => .required
  | .inRule elements err => .inRule elements { err with message := message }

/-- The method `Validate` of a rule on a string. `Required` rejects the empty
string. `In` considers an empty value valid and otherwise accepts the value when
it equals one of the elements. -/
def Rule.Validate : Rule → String → Option ErrorObject
  | .required, value => if value = "" then some ErrRequired else none
  | .inRule elements err, value =>
      if value = "" then none
      else if value ∈ elements then none
      else some err

/-- The function `validation.Validate(value, rules...)` on a string: the error of
the first rule that fails. -/
def Validate (value : String) : List Rule → Option ErrorObject
  | [] => none
  | rule :: rest =>
      match rule.Validate value with
      | some err => some err
      | none => Validate value rest

/-- The function `validation.ValidateStruct` for string fields, each given by its
name, its value and its rules: the map `validation.Errors` from the names of the
failing fields to their errors, or nil (`none`) when no field fails. -/
def ValidateStruct (fields : List (String × String × List Rule)) :
    Option (List (String × ErrorObject)) :=
  let errs := fields.filterMap
    (fun field => (Validate field.2.1 field.2.2).map (fun err => (field.1, err)))
  if errs.isEmpty then none else some errs

/-- An error of a rule as a value of the interface `error`. -/
def ErrorObject.toGoError (err : ErrorObject) : GoError :=
  .plain 400 err.message

end Validation

/-!
# Log level request (commonlib/sharedfeatures/loglevel/controller/dtos.go)
-/

namespace Controller

/-- The struct `ChangeLogLevelRequest`. -/
structure ChangeLogLevelRequest where
  NewLevel : String
  deriving DecidableEq, Repr

/-- The method `Validate` of `ChangeLogLevelRequest`. -/
def ChangeLogLevelRequest.Validate (req : ChangeLogLevelRequest) :
    Option (List (String × Validation.ErrorObject)) :=
  Validation.ValidateStruct
    [("NewLevel", req.NewLevel,
      [Validation.Required,
       (Validation.In ["debug", "info", "warn", "error", "panic", "fatal"]).Error
         "must be one of debug, info, warn, error, panic, or fatal"])]

end Controller

/-!
# Shared options (commonlib/config/sharedoptions/common_options.go)
-/

namespace Sharedoptions

open Config

/-- The option `IsInProduction`. -/
def IsInProduction : ConfigOption :=
  NewValidatedOption "IS_PRODUCTION" true (fun value =>
    (Validation.Validate value
      [(Validation.In ["true", "false"]).Error "value must be 'true' or 'false'"]).map
      Validation.ErrorObject.toGoError)

/-- The option `LogLevel`. -/
def LogLevel : ConfigOption :=
  NewValidatedOption "LOG_LEVEL" false (fun value =>
    (Validation.Validate value
      [(Validation.In ["debug", "info", "warn", "error", "panic", "fatal"]).Error
        "value must be one of debug, info, warn, error, panic, or fatal"]).map
      Validation.ErrorObject.toGoError)

/-- The option `AllowedOrigins`. -/
def AllowedOrigins : ConfigOption := NewOption "ALLOWED_CORS_ORIGINS" false

end Sharedoptions

/-!
# Logger set-up (commonlib/logger/logger.go)
-/

namespace Logger

open Database (GoError)
open Config

/-- The levels of `zapcore`, by their numbers. -/
def DebugLevel : Int := -1

/-- The level `zapcore.InfoLevel`. -/
def InfoLevel : Int := 0

/-- The level `zapcore.WarnLevel`. -/
def WarnLevel : Int := 1

/-- The level `zapcore.ErrorLevel`. -/
def ErrorLevel : Int := 2

/-- The level `zapcore.PanicLevel`. -/
def PanicLevel : Int := 4

/-- The level `zapcore.FatalLevel`. -/
def FatalLevel : Int := 5

/-- Go function `LevelFromString` converts a log level string to a level, returning an
error for unrecognized levels. -/
def LevelFromString (levelStr : String) : Int × Option GoError :=
  if levelStr = "debug" then (DebugLevel, none)
  else if levelStr = "info" then (InfoLevel, none)
  else if levelStr = "warn" then (WarnLevel, none)
  else if levelStr = "error" then (ErrorLevel, none)
  else if levelStr = "panic" then (PanicLevel, none)
  else if levelStr = "fatal" then (FatalLevel, none)
  else (0, some (.plain 500 ("not a valid log level: " ++ levelStr)))

/-- Go function `InitLoggerFromConfig` initializes the logger from the registry.
`initLogger` is the error `InitLogger` answers with for a level and the
production flag; `Except.error` is a panic of `Get` or `GetRequired`. -/
def InitLoggerFromConfig (initLogger : Int → Bool → Option GoError) (registry : Registry) :
    Except String (Option GoError) :=
  match registry.Get Sharedoptions.LogLevel with
  | .error msg => .error msg
  | .ok (logLevelStr, levelPresent) =>
      let logLevelStr := if !levelPresent then "info" else logLevelStr
      match LevelFromString logLevelStr with
      | (_, some parseErr) =>
          .ok (some (.wrapError
            ("invalid log level bypassed validation: " ++ logLevelStr ++ " cause: "
              ++ parseErr.Error) parseErr))
      | (parsedLevel, none) =>
          match registry.GetRequired Sharedoptions.IsInProduction with
          | .error msg => .error msg
          | .ok isProductionStr =>
              match initLogger parsedLevel (decide (isProductionStr = "true")) with
              | some loggerSetupErr =>
                  .ok (some (.wrapError ("logger setup failed: " ++ loggerSetupErr.Error)
                    loggerSetupErr))
              | none => .ok none

/-- The options of the logger registered over an environment in which
`LOG_LEVEL` is set to the empty string and `IS_PRODUCTION` to true. -/
def emptyLevelBuilder : RegistryBuilder :=
  { registeredOptions := ["LOG_LEVEL", "IS_PRODUCTION"],
    allOptions := [Sharedoptions.LogLevel, Sharedoptions.IsInProduction],
    dataSource := mockRegistrySource [("LOG_LEVEL", ""), ("IS_PRODUCTION", "true")] }

end Logger

/-!
# CORS middleware (commonlib/router/middleware/cors_middleware.go)
-/

namespace Middleware

open Config

/-- The struct `middleware.CORSConfig` of echo, with the fields that
`CorsMiddleware` sets. -/
structure CORSConfig where
  AllowOrigins : List String
  AllowMethods : List String
  AllowHeaders : List String
  AllowCredentials : Bool
  deriving DecidableEq, Repr

/-- Go function `CorsMiddleware`: the configuration it hands to `CORSWithConfig`.
`Except.error` is the panic of `Get` for an unregistered option. -/
def CorsMiddleware (options : Registry) : Except String CORSConfig :=
  match options.Get Sharedoptions.AllowedOrigins with
  | .error msg => .error msg
  | .ok (rawOriginsList, listPresent) =>
      let allowedOrigins :=
        if listPresent then rawOriginsList.splitOn ","
        else ["http://localhost:8080"]
      .ok { AllowOrigins := allowedOrigins,
            AllowMethods := ["GET", "HEAD", "PUT", "PATCH", "POST", "DELETE"],
            AllowHeaders := ["Content-Type", "Authorization"],
            AllowCredentials := true }

/-- The option `AllowedOrigins` registered over an empty environment. -/
def absentOriginsBuilder : RegistryBuilder :=
  { registeredOptions := ["ALLOWED_CORS_ORIGINS"],
    allOptions := [Sharedoptions.AllowedOrigins],
    dataSource := mockRegistrySource [] }

end Middleware

/-!
# Greetings (microsvc/features/sample)

The business logic `CoreLogic.AddGreeting` over its two driven ports, and the
database adapter `DatabaseGreetingReader`.
-/

namespace Sample

open Database (GoError Context Connection RetrieveFromContext mockConnectionCtx)

/-- A call made to a driven port, with its arguments. -/
inductive PortCall where
  | list (ctx : Context)
  | randomGreeting (ctx : Context)
  | addGreeting (ctx : Context) (newGreeting : String)
  deriving DecidableEq, Repr

/-- The interface `GreetingReader`. Each answer may depend on the calls made to
the ports so far. -/
structure GreetingReader where
  RandomGreeting : Context → List PortCall → String × Option GoError
  List : Context → List PortCall → List String × Option GoError

/-- The interface `GreetingWriter`. -/
structure GreetingWriter where
  AddGreeting : Context → String → List PortCall → Option GoError

/-- The error `ErrGreetingAlreadyExists`. -/
def ErrGreetingAlreadyExists : GoError :=
  .plain 200 "the passed greeting already exists"

/-- The method `CoreLogic.AddGreeting`: the error it returns and the calls made
to the ports, `calls` being those made before (oldest first). -/
def CoreLogic.AddGreeting (ctx : Context) (newGreeting : String)
    (greetingReader : GreetingReader) (greetingWriter : GreetingWriter)
    (calls : List PortCall) : Option GoError × List PortCall :=
  match greetingReader.List ctx calls with
  | (_, some greetingReadErr) =>
      (some (.wrapError ("failed to get the list of greetings: " ++ greetingReadErr.Error)
        greetingReadErr), calls ++ [.list ctx])
  | (greetings, none) =>
      if newGreeting ∈ greetings then
        (some (.wrapError (ErrGreetingAlreadyExists.Error ++ ": " ++ newGreeting)
          ErrGreetingAlreadyExists), calls ++ [.list ctx])
      else
        (greetingWriter.AddGreeting ctx newGreeting (calls ++ [.list ctx]),
          calls ++ [.list ctx] ++ [.addGreeting ctx newGreeting])

/-- The Go type `[]string`. -/
abbrev Strings := List String

/-- The method `DatabaseGreetingReader.List`. `selectGreetings` is what `Select`
on the handle leaves in `results` together with the error it returns;
`Except.error` is the panic of `RetrieveFromContext`. -/
def DatabaseGreetingReader.List (selectGreetings : Connection → Strings × Option GoError)
    (ctx : Context) : Except String (Strings × Option GoError) :=
  match RetrieveFromContext ctx with
  | .error msg => .error msg
  | .ok db =>
      match selectGreetings db with
      | (_, some selectErr) =>
          .ok ([], some (.wrapError ("could not get list of greetings: " ++ selectErr.Error)
            selectErr))
      | (results, none) => .ok (results, none)

/-- The function `rand.Intn(n)`: a number below `n` chosen by the generator,
whose state is `seed`; it panics when `n` is not positive. -/
def randIntn (seed : Nat) (n : Nat) : Except String Nat :=
  if n = 0 then .error "invalid argument to Intn" else .ok (seed % n)

/-- The method `DatabaseGreetingReader.RandomGreeting`. `Except.error` is a
panic. -/
def DatabaseGreetingReader.RandomGreeting
    (selectGreetings : Connection → Strings × Option GoError) (seed : Nat)
    (ctx : Context) : Except String (String × Option GoError) :=
  match DatabaseGreetingReader.List selectGreetings ctx with
  | .error msg => .error msg
  | .ok (_, some retrieveErr) => .ok ("", some retrieveErr)
  | .ok (greetings, none) =>
      match randIntn seed greetings.length with
      | .error msg => .error msg
      | .ok randomID =>
          match greetings[randomID]? with
          | some greeting => .ok (greeting, none)
          | none => .error "runtime error: index out of range"

/-! ## Sample data for the concrete checks -/

/-- A reader whose `List` answers with three greetings. -/
def sampleReader : GreetingReader where
  RandomGreeting := fun _ _ => ("Hola", none)
  List := fun _ _ => (["Hi", "Hello", "Howdy"], none)

/-- A reader whose `List` fails. -/
def failingReader : GreetingReader where
  RandomGreeting := fun _ _ => ("", some (.plain 1 "oops"))
  List := fun _ _ => ([], some (.plain 1 "oops"))

/-- A writer that fails with `plain 2`. -/
def failingWriter : GreetingWriter where
  AddGreeting := fun _ _ _ => some (.plain 2 "write failed")

end Sample

namespace Database

/-! ## Lemmas on the three paths of `prepareTransactionContext` -/

theorem prepare_owning (d : Driver) (ctx : Context) (w : World) (p t : Nat)
    (hmock : IsMockContext ctx = false)
    (hconn : RetrieveFromContext ctx = .ok (.db p))
    (hbegin : d.beginx p w = .ok t) :
    prepareTransactionContext d ctx w =
      .ret ({ transaction := some t, passedContext := some (transactionContext ctx t),
              isNestedTransaction := false, isMockContext := false }, none)
        (w.log (.beginx p)) := by
  simp [prepareTransactionContext, hmock, hconn, hbegin, preparedTransactionContext.zero,
    transactionContext]

theorem prepare_nested (d : Driver) (ctx : Context) (w : World) (t : Nat)
    (hmock : IsMockContext ctx = false)
    (htx : RetrieveFromContext ctx = .ok (.tx t)) :
    prepareTransactionContext d ctx w =
      .ret ({ transaction := some t, passedContext := some ctx,
              isNestedTransaction := true, isMockContext := false }, none) w := by
  simp [prepareTransactionContext, hmock, htx, preparedTransactionContext.zero]

theorem prepare_mock (d : Driver) (ctx : Context) (w : World)
    (hmock : IsMockContext ctx = true) :
    prepareTransactionContext d ctx w =
      .ret ({ transaction := none, passedContext := some ctx,
              isNestedTransaction := false, isMockContext := true }, none) w := by
  simp [prepareTransactionContext, hmock, preparedTransactionContext.zero]

theorem prepare_begin_failed (d : Driver) (ctx : Context) (w : World) (p : Nat) (b : GoError)
    (hmock : IsMockContext ctx = false)
    (hconn : RetrieveFromContext ctx = .ok (.db p))
    (hbegin : d.beginx p w = .error b) :
    prepareTransactionContext d ctx w =
      .ret (preparedTransactionContext.zero, some b) (w.log (.beginx p)) := by
  simp [prepareTransactionContext, hmock, hconn, hbegin]

/-- A call that bypasses (mock) or reuses (nested) is the operation itself. -/
theorem withTransaction_passthrough (d : Driver) (ctx : Context) (op : ErrOperation)
    (w : World) (tx : Option Nat) (nested mock : Bool) (hflag : nested = true ∨ mock = true)
    (hprep : prepareTransactionContext d ctx w =
      .ret ({ transaction := tx, passedContext := some ctx,
              isNestedTransaction := nested, isMockContext := mock }, none) w) :
    WithTransaction d ctx op w = op (some ctx) w := by
  simp only [WithTransaction, hprep]
  cases hop : op (some ctx) w with
  | panic msg w2 => rfl
  | ret e w2 =>
      rcases hflag with h | h <;> cases nested <;> cases mock <;>
        simp_all [rollbackOnFailureOrCommit]

theorem withTransactionReturning_passthrough {α : Type} [Inhabited α] (d : Driver)
    (ctx : Context) (op : Operation α) (w : World) (tx : Option Nat) (nested mock : Bool)
    (hflag : nested = true ∨ mock = true)
    (hprep : prepareTransactionContext d ctx w =
      .ret ({ transaction := tx, passedContext := some ctx,
              isNestedTransaction := nested, isMockContext := mock }, none) w) :
    WithTransactionReturning d ctx op w = op (some ctx) w := by
  simp only [WithTransactionReturning, hprep]
  cases hop : op (some ctx) w with
  | panic msg w2 => rfl
  | ret r w2 =>
      obtain ⟨v, e⟩ := r
      rcases hflag with h | h <;> cases nested <;> cases mock <;>
        simp_all [rollbackOnFailureOrCommit]

theorem Outcome.map_pair_snd {α : Type} (payload : α) (o : Outcome (Option GoError)) :
    (o.map (fun e => (payload, e))).map Prod.snd = o := by
  cases o <;> rfl

/-- A chain of nested calls on a context whose every call bypasses or reuses
is the innermost operation itself. -/
theorem nestedCalls_passthrough {α : Type} [Inhabited α] (d : Driver) (payload : α)
    (leaf : ErrOperation) (ctx : Context)
    (hpass : ∀ w, ∃ tx nested mock, (nested = true ∨ mock = true) ∧
      prepareTransactionContext d ctx w =
        .ret ({ transaction := tx, passedContext := some ctx,
                isNestedTransaction := nested, isMockContext := mock }, none) w)
    (shapes : List CallShape) (w : World) :
    nestedCalls d payload leaf shapes (some ctx) w = leaf (some ctx) w := by
  induction shapes generalizing w with
  | nil => rfl
  | cons shape rest ih =>
      obtain ⟨tx, nested, mock, hflag, hprep⟩ := hpass w
      cases shape with
      | errorOnly =>
          simp only [nestedCalls]
          rw [withTransaction_passthrough d ctx _ w tx nested mock hflag hprep]
          exact ih w
      | returning =>
          simp only [nestedCalls]
          rw [withTransactionReturning_passthrough d ctx _ w tx nested mock hflag hprep, ih w]
          exact Outcome.map_pair_snd payload _

theorem retrieve_transactionContext (ctx : Context) (t : Nat) :
    RetrieveFromContext (transactionContext ctx t) = .ok (.tx t) := by
  simp [RetrieveFromContext, transactionContext, Context.Value]

theorem errorsIsLoop_self (e : GoError) : errorsIsLoop e e = true := by
  cases e <;> simp [errorsIsLoop]

/-- What an owning call does once Begin has succeeded: run the operation on the
derived context, then finalize. -/
theorem withTransaction_owning (d : Driver) (ctx : Context) (op : ErrOperation) (w : World)
    (p t : Nat)
    (hmock : IsMockContext ctx = false)
    (hconn : RetrieveFromContext ctx = .ok (.db p))
    (hbegin : d.beginx p w = .ok t) :
    WithTransaction d ctx op w =
      match op (some (transactionContext ctx t)) (w.log (.beginx p)) with
      | .panic msg w2 => .panic msg w2
      | .ret operationError w2 =>
          rollbackOnFailureOrCommit d operationError
            { transaction := some t, passedContext := some (transactionContext ctx t),
              isNestedTransaction := false, isMockContext := false } w2 := by
  simp only [WithTransaction, prepare_owning d ctx w p t hmock hconn hbegin]

/-! ## Theorems -/

/-- C1 (as stated, refuted): on the sample request context (non-mock, bare
connection 1, Begin yields transaction 7) with an operation that returns 42 and
no error and a Commit that fails, `WithTransactionReturning` returns 42 with
the commit error, not the zero value 0 of the payload type. -/
theorem C1_counterexample :
    IsMockContext sampleCtx = false
    ∧ RetrieveFromContext sampleCtx = .ok (.db 1)
    ∧ (sampleDriver true false true).beginx 1 emptyWorld = .ok 7
    ∧ okOperation (some (transactionContext sampleCtx 7)) (emptyWorld.log (.beginx 1))
        = .ret (42, none) (emptyWorld.log (.beginx 1))
    ∧ (sampleDriver true false true).commit 7 (emptyWorld.log (.beginx 1))
        = some (.plain 2 "commit failed")
    ∧ WithTransactionReturning (sampleDriver true false true) sampleCtx okOperation emptyWorld
        = .ret (42, some (.plain 2 "commit failed"))
            { trace := [.beginx 1, .commit 7], app := 0 }
    ∧ ¬ ∃ w3, WithTransactionReturning (sampleDriver true false true) sampleCtx okOperation
        emptyWorld = .ret (default, some (.plain 2 "commit failed")) w3 := by
  refine ⟨rfl, rfl, rfl, rfl, rfl, rfl, ?_⟩
  rintro ⟨w3, hw3⟩
  have hrun : WithTransactionReturning (sampleDriver true false true) sampleCtx okOperation
      emptyWorld = .ret (42, some (.plain 2 "commit failed"))
        { trace := [.beginx 1, .commit 7], app := 0 } := rfl
  rw [hrun] at hw3
  simp at hw3

/-- C1 (amended): in an owning call (non-mock context whose handle is a bare
connection, Begin succeeded) where the operation returns no error and Commit
fails with `c`, `WithTransaction` returns `c`, and `WithTransactionReturning`
returns `c` together with the value the operation computed. -/
theorem C1_commit_failure_returns_commit_error (d : Driver) (ctx : Context) (w : World)
    (p t : Nat) (c : GoError)
    (hmock : IsMockContext ctx = false)
    (hconn : RetrieveFromContext ctx = .ok (.db p))
    (hbegin : d.beginx p w = .ok t) :
    (∀ (op : ErrOperation) (w2 : World),
        op (some (transactionContext ctx t)) (w.log (.beginx p)) = .ret none w2 →
        d.commit t w2 = some c →
        WithTransaction d ctx op w = .ret (some c) (w2.log (.commit t)))
    ∧ (∀ (α : Type) [Inhabited α] (op : Operation α) (v : α) (w2 : World),
        op (some (transactionContext ctx t)) (w.log (.beginx p)) = .ret (v, none) w2 →
        d.commit t w2 = some c →
        WithTransactionReturning d ctx op w = .ret (v, some c) (w2.log (.commit t))) := by
  have hprep := prepare_owning d ctx w p t hmock hconn hbegin
  refine ⟨?_, ?_⟩
  · intro op w2 hop hcommit
    simp [WithTransaction, hprep, hop, rollbackOnFailureOrCommit, hcommit]
  · intro α _ op v w2 hop hcommit
    simp [WithTransactionReturning, hprep, hop, rollbackOnFailureOrCommit, hcommit]

/-- C1 witness: the sample owning call with a failing Commit. -/
theorem C1_commit_failure_witness :
    WithTransaction (sampleDriver true false true) sampleCtx okErrOperation emptyWorld
        = .ret (some (.plain 2 "commit failed"))
            { trace := [.beginx 1, .commit 7], app := 0 }
    ∧ WithTransactionReturning (sampleDriver true false true) sampleCtx okOperation emptyWorld
        = .ret (42, some (.plain 2 "commit failed"))
            { trace := [.beginx 1, .commit 7], app := 0 } :=
  have h := C1_commit_failure_returns_commit_error (sampleDriver true false true) sampleCtx
    emptyWorld 1 7 (.plain 2 "commit failed") rfl rfl rfl
  ⟨h.1 okErrOperation (emptyWorld.log (.beginx 1)) rfl rfl,
   h.2 Nat okOperation 42 (emptyWorld.log (.beginx 1)) rfl rfl⟩

/-- C3: in an owning call where the operation returns the error `e` and
Rollback fails with `r`, `WithTransaction` returns an error for which
`errors.Is` finds both `e` and `r`; the only driver call after the operation is
that one Rollback (no Commit). -/
theorem C3_rollback_failure_wraps_both (d : Driver) (ctx : Context) (op : ErrOperation)
    (w w2 : World) (p t : Nat) (e r : GoError)
    (hmock : IsMockContext ctx = false)
    (hconn : RetrieveFromContext ctx = .ok (.db p))
    (hbegin : d.beginx p w = .ok t)
    (hop : op (some (transactionContext ctx t)) (w.log (.beginx p)) = .ret (some e) w2)
    (hrollback : d.rollback t w2 = some r) :
    ∃ result, WithTransaction d ctx op w = .ret (some result) (w2.log (.rollback t))
      ∧ errorsIs (some result) (some e) = true
      ∧ errorsIs (some result) (some r) = true := by
  refine ⟨rollbackFailedError e r, ?_, ?_, ?_⟩
  · rw [withTransaction_owning d ctx op w p t hmock hconn hbegin, hop]
    simp [rollbackOnFailureOrCommit, hrollback]
  · simp [errorsIs, rollbackFailedError, errorsIsLoop, errorsIsLoop_self]
  · simp [errorsIs, rollbackFailedError, errorsIsLoop, errorsIsLoop_self]

/-- C3 witness: the sample owning call with a failing operation and a failing
Rollback. -/
theorem C3_rollback_failure_witness :
    ∃ result, WithTransaction (sampleDriver true true false) sampleCtx failingErrOperation
        emptyWorld = .ret (some result) ((emptyWorld.log (.beginx 1)).log (.rollback 7))
      ∧ errorsIs (some result) (some (.plain 1 "operation failed")) = true
      ∧ errorsIs (some result) (some (.plain 3 "rollback failed")) = true :=
  C3_rollback_failure_wraps_both (sampleDriver true true false) sampleCtx failingErrOperation
    emptyWorld (emptyWorld.log (.beginx 1)) 1 7 (.plain 1 "operation failed")
    (.plain 3 "rollback failed") rfl rfl rfl rfl rfl

/-- C4: in an owning call where the operation returns the error `e` and
Rollback succeeds, `WithTransaction` returns `e` itself, and the only driver
call after the operation is one Rollback (no Commit). -/
theorem C4_rollback_success_returns_operation_error (d : Driver) (ctx : Context)
    (op : ErrOperation) (w w2 : World) (p t : Nat) (e : GoError)
    (hmock : IsMockContext ctx = false)
    (hconn : RetrieveFromContext ctx = .ok (.db p))
    (hbegin : d.beginx p w = .ok t)
    (hop : op (some (transactionContext ctx t)) (w.log (.beginx p)) = .ret (some e) w2)
    (hrollback : d.rollback t w2 = none) :
    WithTransaction d ctx op w = .ret (some e) (w2.log (.rollback t))
      ∧ (w2.log (.rollback t)).trace = w2.trace ++ [.rollback t] := by
  refine ⟨?_, rfl⟩
  rw [withTransaction_owning d ctx op w p t hmock hconn hbegin, hop]
  simp [rollbackOnFailureOrCommit, hrollback]

/-- C4 witness: the sample owning call with a failing operation. -/
theorem C4_rollback_success_witness :
    WithTransaction (sampleDriver true true true) sampleCtx failingErrOperation emptyWorld
        = .ret (some (.plain 1 "operation failed"))
            ((emptyWorld.log (.beginx 1)).log (.rollback 7))
      ∧ ((emptyWorld.log (.beginx 1)).log (.rollback 7)).trace
          = (emptyWorld.log (.beginx 1)).trace ++ [.rollback 7] :=
  C4_rollback_success_returns_operation_error (sampleDriver true true true) sampleCtx
    failingErrOperation emptyWorld (emptyWorld.log (.beginx 1)) 1 7
    (.plain 1 "operation failed") rfl rfl rfl rfl rfl

/-- C5: in an owning call where the operation returns no error and Commit
succeeds, `WithTransaction` returns nil and `WithTransactionReturning` returns
the value of the operation with nil; the only driver call after the operation
is one Commit (no Rollback). -/
theorem C5_commit_success_returns_nil (d : Driver) (ctx : Context) (w : World) (p t : Nat)
    (hmock : IsMockContext ctx = false)
    (hconn : RetrieveFromContext ctx = .ok (.db p))
    (hbegin : d.beginx p w = .ok t) :
    (∀ (op : ErrOperation) (w2 : World),
        op (some (transactionContext ctx t)) (w.log (.beginx p)) = .ret none w2 →
        d.commit t w2 = none →
        WithTransaction d ctx op w = .ret none (w2.log (.commit t)))
    ∧ (∀ (α : Type) [Inhabited α] (op : Operation α) (v : α) (w2 : World),
        op (some (transactionContext ctx t)) (w.log (.beginx p)) = .ret (v, none) w2 →
        d.commit t w2 = none →
        WithTransactionReturning d ctx op w = .ret (v, none) (w2.log (.commit t))) := by
  have hprep := prepare_owning d ctx w p t hmock hconn hbegin
  refine ⟨?_, ?_⟩
  · intro op w2 hop hcommit
    simp [WithTransaction, hprep, hop, rollbackOnFailureOrCommit, hcommit]
  · intro α _ op v w2 hop hcommit
    simp [WithTransactionReturning, hprep, hop, rollbackOnFailureOrCommit, hcommit]

/-- C5 witness: the sample owning call with everything succeeding. -/
theorem C5_commit_success_witness :
    WithTransaction (sampleDriver true true true) sampleCtx okErrOperation emptyWorld
        = .ret none { trace := [.beginx 1, .commit 7], app := 0 }
    ∧ WithTransactionReturning (sampleDriver true true true) sampleCtx okOperation emptyWorld
        = .ret (42, none) { trace := [.beginx 1, .commit 7], app := 0 } :=
  have h := C5_commit_success_returns_nil (sampleDriver true true true) sampleCtx
    emptyWorld 1 7 rfl rfl rfl
  ⟨h.1 okErrOperation (emptyWorld.log (.beginx 1)) rfl rfl,
   h.2 Nat okOperation 42 (emptyWorld.log (.beginx 1)) rfl rfl⟩

/-- C6: when the handle of a non-mock context is already a transaction, both
`WithTransaction` and `WithTransactionReturning` are one run of the operation
on that same context: same value, same error (or panic), same resulting world,
hence no Begin, Commit or Rollback. -/
theorem C6_nested_call_reuses_transaction (d : Driver) (ctx : Context) (t : Nat)
    (hmock : IsMockContext ctx = false)
    (htx : RetrieveFromContext ctx = .ok (.tx t)) :
    (∀ (op : ErrOperation) (w : World), WithTransaction d ctx op w = op (some ctx) w)
    ∧ (∀ (α : Type) [Inhabited α] (op : Operation α) (w : World),
        WithTransactionReturning d ctx op w = op (some ctx) w) := by
  refine ⟨?_, ?_⟩
  · intro op w
    exact withTransaction_passthrough d ctx op w (some t) true false (Or.inl rfl)
      (prepare_nested d ctx w t hmock htx)
  · intro α _ op w
    exact withTransactionReturning_passthrough d ctx op w (some t) true false (Or.inl rfl)
      (prepare_nested d ctx w t hmock htx)

/-- C6 witness: a context that already carries transaction 7; the failing
operation is not followed by a Rollback, the succeeding one not by a Commit. -/
theorem C6_nested_call_witness :
    WithTransaction (sampleDriver true true true) sampleTxCtx failingErrOperation emptyWorld
        = .ret (some (.plain 1 "operation failed")) emptyWorld
    ∧ WithTransactionReturning (sampleDriver true true true) sampleTxCtx okOperation emptyWorld
        = .ret (42, none) emptyWorld :=
  have h := C6_nested_call_reuses_transaction (sampleDriver true true true) sampleTxCtx 7
    rfl rfl
  ⟨h.1 failingErrOperation emptyWorld, h.2 Nat okOperation emptyWorld⟩

/-- C7: on a context flagged as a mock context, with or without a database
handle attached, `WithTransaction` and `WithTransactionReturning` are one run of
the operation on that same context (no panic of their own, no Begin, Commit or
Rollback), and so is every chain of nested calls on it. -/
theorem C7_mock_context_bypasses_transactions (d : Driver) (ctx : Context)
    (hmock : IsMockContext ctx = true) :
    (∀ (op : ErrOperation) (w : World), WithTransaction d ctx op w = op (some ctx) w)
    ∧ (∀ (α : Type) [Inhabited α] (op : Operation α) (w : World),
        WithTransactionReturning d ctx op w = op (some ctx) w)
    ∧ (∀ (α : Type) [Inhabited α] (payload : α) (leaf : ErrOperation)
        (shapes : List CallShape) (w : World),
        nestedCalls d payload leaf shapes (some ctx) w = leaf (some ctx) w) := by
  refine ⟨?_, ?_, ?_⟩
  · intro op w
    exact withTransaction_passthrough d ctx op w none false true (Or.inr rfl)
      (prepare_mock d ctx w hmock)
  · intro α _ op w
    exact withTransactionReturning_passthrough d ctx op w none false true (Or.inr rfl)
      (prepare_mock d ctx w hmock)
  · intro α _ payload leaf shapes w
    exact nestedCalls_passthrough d payload leaf ctx
      (fun w0 => ⟨none, false, true, Or.inr rfl, prepare_mock d ctx w0 hmock⟩) shapes w

/-- C7 witness: a mock context with no database handle at all. -/
theorem C7_mock_context_witness :
    RetrieveFromContext sampleMockCtx = .error noConnectionMsg
    ∧ WithTransaction (sampleDriver true true true) sampleMockCtx failingErrOperation emptyWorld
        = .ret (some (.plain 1 "operation failed")) emptyWorld
    ∧ WithTransactionReturning (sampleDriver true true true) sampleMockCtx okOperation
        emptyWorld = .ret (42, none) emptyWorld :=
  have h := C7_mock_context_bypasses_transactions (sampleDriver true true true) sampleMockCtx rfl
  ⟨rfl, h.1 failingErrOperation emptyWorld, h.2.1 Nat okOperation emptyWorld⟩

/-- C8: when the handle is a bare connection and Begin fails with `b`,
`WithTransaction` returns `b` and `WithTransactionReturning` returns the zero
value with `b`, whatever the operation is (it is not run), and the only driver
call issued is the Begin. -/
theorem C8_begin_failure_propagates (d : Driver) (ctx : Context) (w : World) (p : Nat)
    (b : GoError)
    (hmock : IsMockContext ctx = false)
    (hconn : RetrieveFromContext ctx = .ok (.db p))
    (hbegin : d.beginx p w = .error b) :
    (∀ (op : ErrOperation), WithTransaction d ctx op w = .ret (some b) (w.log (.beginx p)))
    ∧ (∀ (α : Type) [Inhabited α] (op : Operation α),
        WithTransactionReturning d ctx op w = .ret (default, some b) (w.log (.beginx p))) := by
  have hprep := prepare_begin_failed d ctx w p b hmock hconn hbegin
  refine ⟨?_, ?_⟩
  · intro op
    simp [WithTransaction, hprep]
  · intro α _ op
    simp [WithTransactionReturning, hprep]

/-- C8 witness: a failing Begin in front of operations that would panic. -/
theorem C8_begin_failure_witness :
    WithTransaction (sampleDriver false true true) sampleCtx panickingErrOperation emptyWorld
        = .ret (some (.plain 4 "begin failed")) { trace := [.beginx 1], app := 0 }
    ∧ WithTransactionReturning (sampleDriver false true true) sampleCtx panickingOperation
        emptyWorld = .ret (0, some (.plain 4 "begin failed")) { trace := [.beginx 1], app := 0 } :=
  have h := C8_begin_failure_propagates (sampleDriver false true true) sampleCtx emptyWorld 1
    (.plain 4 "begin failed") rfl rfl rfl
  ⟨h.1 panickingErrOperation, h.2 Nat panickingOperation⟩

/-- C9: in an owning call whose Begin succeeds with transaction `t`, the
operation is run on the caller's context extended with `t`; on that context
`RetrieveFromContext` returns `t`, every key other than the transaction key has
the value it has in the caller's context, and the caller's context still
resolves to the bare connection. -/
theorem C9_owning_call_derives_transaction_context (d : Driver) (ctx : Context) (w : World)
    (p t : Nat)
    (hmock : IsMockContext ctx = false)
    (hconn : RetrieveFromContext ctx = .ok (.db p))
    (hbegin : d.beginx p w = .ok t) :
    (prepareTransactionContext d ctx w).map (fun r => (r.1.passedContext, r.1.transaction))
        = .ret (some (Context.withValue ctx Key.ctxTransactionKey (Value.sqlxTx t)), some t)
            (w.log (.beginx p))
    ∧ (∀ (op : ErrOperation),
        WithTransaction d ctx op w =
          match op (some (Context.withValue ctx Key.ctxTransactionKey (Value.sqlxTx t)))
              (w.log (.beginx p)) with
          | .panic msg w2 => .panic msg w2
          | .ret operationError w2 =>
              rollbackOnFailureOrCommit d operationError
                { transaction := some t,
                  passedContext :=
                    some (Context.withValue ctx Key.ctxTransactionKey (Value.sqlxTx t)),
                  isNestedTransaction := false, isMockContext := false } w2)
    ∧ RetrieveFromContext (Context.withValue ctx Key.ctxTransactionKey (Value.sqlxTx t))
        = .ok (.tx t)
    ∧ (∀ k, k ≠ Key.ctxTransactionKey →
        (Context.withValue ctx Key.ctxTransactionKey (Value.sqlxTx t)).Value k = ctx.Value k)
    ∧ RetrieveFromContext ctx = .ok (.db p) := by
  refine ⟨?_, ?_, retrieve_transactionContext ctx t, ?_, hconn⟩
  · rw [prepare_owning d ctx w p t hmock hconn hbegin]
    rfl
  · intro op
    exact withTransaction_owning d ctx op w p t hmock hconn hbegin
  · intro k hk
    simp [Context.Value, hk]

/-- C9 witness: the sample request context; the unrelated key 5 is still
visible in the derived context. -/
theorem C9_owning_call_witness :
    (prepareTransactionContext (sampleDriver true true true) sampleCtx emptyWorld).map
        (fun r => (r.1.passedContext, r.1.transaction))
        = .ret (some (Context.withValue sampleCtx Key.ctxTransactionKey (Value.sqlxTx 7)), some 7)
            (emptyWorld.log (.beginx 1))
    ∧ RetrieveFromContext (Context.withValue sampleCtx Key.ctxTransactionKey (Value.sqlxTx 7))
        = .ok (.tx 7)
    ∧ (Context.withValue sampleCtx Key.ctxTransactionKey (Value.sqlxTx 7)).Value (.other 5)
        = sampleCtx.Value (.other 5)
    ∧ RetrieveFromContext sampleCtx = .ok (.db 1) :=
  have h := C9_owning_call_derives_transaction_context (sampleDriver true true true) sampleCtx
    emptyWorld 1 7 rfl rfl rfl
  ⟨h.1, h.2.2.1, h.2.2.2.1 (.other 5) (by decide), h.2.2.2.2⟩

/-- C10: on a context with no handle attached (neither connection nor
transaction), a second attachment returns the context of the first unchanged
and `RetrieveFromContext` returns the first connection, for each of the four
ways of making the two attachments with `CreateDerivativeContext` or
`CreateDerivativeMockContext`. -/
theorem C10_first_attachment_wins (ctx : Context) (connA connB : Nat)
    (hconn : ctx.Value Key.ctxConnectionKey = none)
    (htx : ctx.Value Key.ctxTransactionKey = none) :
    (CreateDerivativeContext (CreateDerivativeContext ctx connA) connB
        = CreateDerivativeContext ctx connA
      ∧ RetrieveFromContext (CreateDerivativeContext (CreateDerivativeContext ctx connA) connB)
        = .ok (.db connA))
    ∧ (CreateDerivativeMockContext (CreateDerivativeContext ctx connA) connB
        = CreateDerivativeContext ctx connA
      ∧ RetrieveFromContext
          (CreateDerivativeMockContext (CreateDerivativeContext ctx connA) connB)
        = .ok (.db connA))
    ∧ (CreateDerivativeContext (CreateDerivativeMockContext ctx connA) connB
        = CreateDerivativeMockContext ctx connA
      ∧ RetrieveFromContext
          (CreateDerivativeContext (CreateDerivativeMockContext ctx connA) connB)
        = .ok (.mock connA))
    ∧ (CreateDerivativeMockContext (CreateDerivativeMockContext ctx connA) connB
        = CreateDerivativeMockContext ctx connA
      ∧ RetrieveFromContext
          (CreateDerivativeMockContext (CreateDerivativeMockContext ctx connA) connB)
        = .ok (.mock connA)) := by
  simp [CreateDerivativeContext, CreateDerivativeMockContext, RetrieveFromContext,
    Context.Value, hconn, htx]

/-- C10 witness: attaching connection 1 and then connection 2 to the root
context. -/
theorem C10_first_attachment_witness :
    CreateDerivativeContext (CreateDerivativeContext .background 1) 2
        = CreateDerivativeContext .background 1
    ∧ RetrieveFromContext (CreateDerivativeContext (CreateDerivativeContext .background 1) 2)
        = .ok (.db 1) :=
  (C10_first_attachment_wins .background 1 2 rfl rfl).1

/-- C11: `RetrieveFromContext` returns the transaction stored in the context
whenever one is stored, whatever is stored as connection; with no transaction
it returns the attached connection (real or mock); in particular on a context
with no handle it returns the connection that `CreateDerivativeContext` (or
`CreateDerivativeMockContext`) has just attached. -/
theorem C11_retrieve_prefers_transaction (ctx : Context) :
    (∀ t, ctx.Value Key.ctxTransactionKey = some (.sqlxTx t) →
        RetrieveFromContext ctx = .ok (.tx t))
    ∧ (∀ p, ctx.Value Key.ctxTransactionKey = none →
        ctx.Value Key.ctxConnectionKey = some (.sqlxDB p) →
        RetrieveFromContext ctx = .ok (.db p))
    ∧ (∀ p, ctx.Value Key.ctxTransactionKey = none →
        ctx.Value Key.ctxConnectionKey = some (.mockConnection p) →
        RetrieveFromContext ctx = .ok (.mock p))
    ∧ (∀ db, ctx.Value Key.ctxTransactionKey = none →
        ctx.Value Key.ctxConnectionKey = none →
        RetrieveFromContext (CreateDerivativeContext ctx db) = .ok (.db db)
        ∧ RetrieveFromContext (CreateDerivativeMockContext ctx db) = .ok (.mock db)) := by
  refine ⟨?_, ?_, ?_, ?_⟩
  · intro t ht
    simp [RetrieveFromContext, ht]
  · intro p ht hc
    simp [RetrieveFromContext, ht, hc]
  · intro p ht hc
    simp [RetrieveFromContext, ht, hc]
  · intro db ht hc
    simp [RetrieveFromContext, CreateDerivativeContext, CreateDerivativeMockContext,
      Context.Value, ht, hc]

/-- C11 witness: a context holding connection 1 and transaction 7 resolves to
the transaction, its parent to the connection, and a fresh attachment to the
root context to the attached connection. -/
theorem C11_retrieve_witness :
    RetrieveFromContext sampleTxCtx = .ok (.tx 7)
    ∧ sampleTxCtx.Value Key.ctxConnectionKey = some (.sqlxDB 1)
    ∧ RetrieveFromContext sampleCtx = .ok (.db 1)
    ∧ RetrieveFromContext (CreateDerivativeContext .background 3) = .ok (.db 3) :=
  ⟨(C11_retrieve_prefers_transaction sampleTxCtx).1 7 rfl, rfl,
   (C11_retrieve_prefers_transaction sampleCtx).2.1 1 rfl rfl,
   ((C11_retrieve_prefers_transaction .background).2.2.2 3 rfl rfl).1⟩

/-- C12: on a context with neither a transaction nor a connection stored,
`RetrieveFromContext` panics, and when the context is not a mock context
`WithTransaction` and `WithTransactionReturning` panic with the same message,
whatever the operation is (it is not run) and without any driver call. -/
theorem C12_no_handle_panics (d : Driver) (ctx : Context)
    (htx : ctx.Value Key.ctxTransactionKey = none)
    (hconn : ctx.Value Key.ctxConnectionKey = none) :
    RetrieveFromContext ctx = .error noConnectionMsg
    ∧ (IsMockContext ctx = false →
        (∀ (op : ErrOperation) (w : World),
            WithTransaction d ctx op w = .panic noConnectionMsg w)
        ∧ (∀ (α : Type) [Inhabited α] (op : Operation α) (w : World),
            WithTransactionReturning d ctx op w = .panic noConnectionMsg w)) := by
  have hret : RetrieveFromContext ctx = .error noConnectionMsg := by
    simp [RetrieveFromContext, htx, hconn]
  refine ⟨hret, fun hmock => ⟨?_, ?_⟩⟩
  · intro op w
    simp [WithTransaction, prepareTransactionContext, hmock, hret]
  · intro α _ op w
    simp [WithTransactionReturning, prepareTransactionContext, hmock, hret]

/-- C12 witness: the root context, with operations that would panic with
another message if they were run. -/
theorem C12_no_handle_witness :
    RetrieveFromContext .background = .error noConnectionMsg
    ∧ WithTransaction (sampleDriver true true true) .background panickingErrOperation
        emptyWorld = .panic noConnectionMsg emptyWorld
    ∧ WithTransactionReturning (sampleDriver true true true) .background panickingOperation
        emptyWorld = .panic noConnectionMsg emptyWorld :=
  have h := C12_no_handle_panics (sampleDriver true true true) .background rfl rfl
  ⟨h.1, (h.2 rfl).1 panickingErrOperation emptyWorld,
   (h.2 rfl).2 Nat panickingOperation emptyWorld⟩

/-- Finalization never loses the error of the operation: when the prepared
context is a mock one, a nested one or holds a transaction, the result is an
error in which `errors.Is` finds the operation error. -/
theorem finalize_keeps_operation_error (d : Driver) (e : GoError)
    (prepared : preparedTransactionContext) (w2 : World)
    (h : prepared.isMockContext = true ∨ prepared.isNestedTransaction = true
      ∨ ∃ t, prepared.transaction = some t) :
    ∃ err w3, rollbackOnFailureOrCommit d (some e) prepared w2 = .ret (some err) w3
      ∧ errorsIs (some err) (some e) = true := by
  by_cases hm : prepared.isMockContext = true
  · exact ⟨e, w2, by simp [rollbackOnFailureOrCommit, hm], by simp [errorsIs, errorsIsLoop_self]⟩
  by_cases hn : prepared.isNestedTransaction = true
  · exact ⟨e, w2, by simp [rollbackOnFailureOrCommit, hm, hn],
      by simp [errorsIs, errorsIsLoop_self]⟩
  rcases h with h | h | ⟨t, ht⟩
  · exact absurd h hm
  · exact absurd h hn
  cases hrb : d.rollback t w2 with
  | none =>
      exact ⟨e, w2.log (.rollback t), by simp [rollbackOnFailureOrCommit, hm, hn, ht, hrb],
        by simp [errorsIs, errorsIsLoop_self]⟩
  | some r =>
      exact ⟨rollbackFailedError e r, w2.log (.rollback t),
        by simp [rollbackOnFailureOrCommit, hm, hn, ht, hrb],
        by simp [errorsIs, rollbackFailedError, errorsIsLoop, errorsIsLoop_self]⟩

/-- In the mock, nested and owning modes a prepared context that comes without
an error is a mock one, a nested one or holds the new transaction. -/
theorem prepare_modes (d : Driver) (ctx : Context) (w w1 : World)
    (prepared : preparedTransactionContext)
    (hmode : IsMockContext ctx = true ∨ (∃ t, RetrieveFromContext ctx = .ok (.tx t))
      ∨ (∃ p, RetrieveFromContext ctx = .ok (.db p)))
    (hprep : prepareTransactionContext d ctx w = .ret (prepared, none) w1) :
    prepared.isMockContext = true ∨ prepared.isNestedTransaction = true
      ∨ ∃ t, prepared.transaction = some t := by
  cases hmk : IsMockContext ctx with
  | true =>
      rw [prepare_mock d ctx w hmk] at hprep
      simp only [Outcome.ret.injEq, Prod.mk.injEq] at hprep
      obtain ⟨⟨hp, -⟩, -⟩ := hprep
      subst hp
      exact Or.inl rfl
  | false =>
      rcases hmode with hm | ⟨t, ht⟩ | ⟨p, hp⟩
      · rw [hmk] at hm
        cases hm
      · rw [prepare_nested d ctx w t hmk ht] at hprep
        simp only [Outcome.ret.injEq, Prod.mk.injEq] at hprep
        obtain ⟨⟨hp, -⟩, -⟩ := hprep
        subst hp
        exact Or.inr (Or.inl rfl)
      · cases hb : d.beginx p w with
        | error b =>
            rw [prepare_begin_failed d ctx w p b hmk hp hb] at hprep
            simp at hprep
        | ok t =>
            rw [prepare_owning d ctx w p t hmk hp hb] at hprep
            simp only [Outcome.ret.injEq, Prod.mk.injEq] at hprep
            obtain ⟨⟨hq, -⟩, -⟩ := hprep
            subst hq
            exact Or.inr (Or.inr ⟨t, rfl⟩)

/-- C13: in the mock, nested and owning modes, whatever Rollback answers:
when the operation, run on the context and world that
`prepareTransactionContext` hands over, returns the error `e`,
`WithTransaction` returns a non-nil error in which `errors.Is` finds `e`; when
Begin fails its error is returned; when the operation succeeds and Commit
fails the commit error is returned. -/
theorem C13_failures_surface (d : Driver) (ctx : Context) (op : ErrOperation) (w : World)
    (hmode : IsMockContext ctx = true ∨ (∃ t, RetrieveFromContext ctx = .ok (.tx t))
      ∨ (∃ p, RetrieveFromContext ctx = .ok (.db p))) :
    (∀ prepared w1 e w2,
        prepareTransactionContext d ctx w = .ret (prepared, none) w1 →
        op prepared.passedContext w1 = .ret (some e) w2 →
        ∃ err w3, WithTransaction d ctx op w = .ret (some err) w3
          ∧ errorsIs (some err) (some e) = true)
    ∧ (∀ p b, IsMockContext ctx = false → RetrieveFromContext ctx = .ok (.db p) →
        d.beginx p w = .error b →
        ∃ w3, WithTransaction d ctx op w = .ret (some b) w3)
    ∧ (∀ p t c w2, IsMockContext ctx = false → RetrieveFromContext ctx = .ok (.db p) →
        d.beginx p w = .ok t →
        op (some (transactionContext ctx t)) (w.log (.beginx p)) = .ret none w2 →
        d.commit t w2 = some c →
        ∃ w3, WithTransaction d ctx op w = .ret (some c) w3) := by
  refine ⟨?_, ?_, ?_⟩
  · intro prepared w1 e w2 hprep hop
    have hshape := prepare_modes d ctx w w1 prepared hmode hprep
    obtain ⟨err, w3, hfin, his⟩ := finalize_keeps_operation_error d e prepared w2 hshape
    refine ⟨err, w3, ?_, his⟩
    simp only [WithTransaction, hprep, hop]
    exact hfin
  · intro p b hmk hp hb
    refine ⟨w.log (.beginx p), ?_⟩
    simp [WithTransaction, prepare_begin_failed d ctx w p b hmk hp hb]
  · intro p t c w2 hmk hp hb hop hc
    refine ⟨w2.log (.commit t), ?_⟩
    rw [withTransaction_owning d ctx op w p t hmk hp hb, hop]
    simp [rollbackOnFailureOrCommit, hc]

/-- C13 witness: the sample owning call with a failing operation and a failing
Rollback still reports the operation error. -/
theorem C13_failures_surface_witness :
    ∃ err w3, WithTransaction (sampleDriver true true false) sampleCtx failingErrOperation
        emptyWorld = .ret (some err) w3
      ∧ errorsIs (some err) (some (.plain 1 "operation failed")) = true :=
  (C13_failures_surface (sampleDriver true true false) sampleCtx failingErrOperation emptyWorld
    (Or.inr (Or.inr ⟨1, rfl⟩))).1
    { transaction := some 7, passedContext := some (transactionContext sampleCtx 7),
      isNestedTransaction := false, isMockContext := false }
    (emptyWorld.log (.beginx 1)) (.plain 1 "operation failed") (emptyWorld.log (.beginx 1))
    rfl rfl

/-- C14: for every context and every error-only operation, `WithTransaction`
is `WithTransactionReturning` applied to the operation paired with the unit
value, with the value dropped from the result: same error or panic, and same
resulting world, hence the same driver calls. As the operation is arbitrary,
it is also run on the same context. -/
theorem C14_call_shapes_agree (d : Driver) (ctx : Context) (op : ErrOperation) (w : World) :
    WithTransaction d ctx op w =
      (WithTransactionReturning d ctx (fun c w1 => (op c w1).map (fun e => ((), e))) w).map
        Prod.snd := by
  simp only [WithTransaction, WithTransactionReturning]
  cases hprep : prepareTransactionContext d ctx w with
  | panic msg w1 => rfl
  | ret r w1 =>
      obtain ⟨prepared, perr⟩ := r
      cases perr with
      | some b => rfl
      | none =>
          simp only []
          cases hop : op prepared.passedContext w1 with
          | panic msg w2 => rfl
          | ret e w2 =>
              simp only [Outcome.map]
              cases hfin : rollbackOnFailureOrCommit d e prepared w2 <;> rfl

end Database

namespace Config

open Database (GoError)

/-! ## Lemmas on the registry builder -/

theorem verifyOption_eq (dataSource : registrySource) (acc : ErrIncorrectConfiguration)
    (o : ConfigOption) :
    verifyOption dataSource acc o =
      { MissingRequiredVariables :=
          acc.MissingRequiredVariables ++ requiredAbsentNames dataSource [o],
        InvalidVariables := acc.InvalidVariables ++ rejectedVariables dataSource [o] } := by
  obtain ⟨name, required, fn⟩ := o
  obtain ⟨getValue⟩ := dataSource
  simp only [verifyOption, requiredAbsentNames, rejectedVariables, rejectedVariable,
    List.filterMap_cons, List.filterMap_nil, List.filter_cons, List.filter_nil]
  generalize getValue name = r
  obtain ⟨value, present⟩ := r
  cases required <;> cases present <;> cases fn with
  | none => simp
  | some f => cases hf : f value <;> simp [hf]

theorem verify_foldl (dataSource : registrySource) (options : List ConfigOption)
    (acc : ErrIncorrectConfiguration) :
    options.foldl (verifyOption dataSource) acc =
      { MissingRequiredVariables :=
          acc.MissingRequiredVariables ++ requiredAbsentNames dataSource options,
        InvalidVariables := acc.InvalidVariables ++ rejectedVariables dataSource options } := by
  induction options generalizing acc with
  | nil => simp [requiredAbsentNames, rejectedVariables]
  | cons o rest ih =>
      rw [List.foldl_cons, ih, verifyOption_eq]
      simp only [requiredAbsentNames, rejectedVariables, List.filter_cons, List.filter_nil,
        List.filterMap_cons, List.filterMap_nil]
      cases hreq : (o.required && !(dataSource.getValue o.envName).2) <;>
        cases hrej : rejectedVariable dataSource o <;> simp

/-- The issues collected by `VerifyAndBuild`. -/
theorem verifyAndBuild_issues (rb : RegistryBuilder) :
    rb.allOptions.foldl (verifyOption rb.dataSource)
        { MissingRequiredVariables := [], InvalidVariables := [] } =
      { MissingRequiredVariables := requiredAbsentNames rb.dataSource rb.allOptions,
        InvalidVariables := rejectedVariables rb.dataSource rb.allOptions } := by
  rw [verify_foldl]
  simp

theorem requiredAbsentNames_eq_nil (dataSource : registrySource) (options : List ConfigOption) :
    requiredAbsentNames dataSource options = [] ↔
      ∀ o ∈ options, o.required = true → (dataSource.getValue o.envName).2 = true := by
  simp [requiredAbsentNames, List.filter_eq_nil_iff]

theorem rejectedVariable_eq_none (dataSource : registrySource) (o : ConfigOption) :
    rejectedVariable dataSource o = none ↔
      ∀ fn, o.validationFn = some fn → (dataSource.getValue o.envName).2 = true →
        fn (dataSource.getValue o.envName).1 = none := by
  unfold rejectedVariable
  cases hp : (dataSource.getValue o.envName).2 <;> cases hf : o.validationFn <;> simp

theorem rejectedVariables_eq_nil (dataSource : registrySource) (options : List ConfigOption) :
    rejectedVariables dataSource options = [] ↔
      ∀ o ∈ options, ∀ fn, o.validationFn = some fn →
        (dataSource.getValue o.envName).2 = true →
        fn (dataSource.getValue o.envName).1 = none := by
  simp only [rejectedVariables, List.filterMap_eq_nil_iff, rejectedVariable_eq_none]


theorem errorsPresent_eq_false (issues : ErrIncorrectConfiguration) :
    issues.errorsPresent = false ↔
      issues.MissingRequiredVariables = [] ∧ issues.InvalidVariables = [] := by
  simp [ErrIncorrectConfiguration.errorsPresent, List.length_eq_zero]

/-- The two cases of `VerifyAndBuild`. -/
theorem verifyAndBuild_cases (rb : RegistryBuilder) :
    (requiredAbsentNames rb.dataSource rb.allOptions = []
        ∧ rejectedVariables rb.dataSource rb.allOptions = []
        ∧ rb.VerifyAndBuild =
            ({ registeredOptions := rb.registeredOptions, dataSource := some rb.dataSource },
              none))
    ∨ ((requiredAbsentNames rb.dataSource rb.allOptions ≠ []
          ∨ rejectedVariables rb.dataSource rb.allOptions ≠ [])
        ∧ rb.VerifyAndBuild =
            (Registry.zero, some (.incorrectConfiguration
              { MissingRequiredVariables := requiredAbsentNames rb.dataSource rb.allOptions,
                InvalidVariables := rejectedVariables rb.dataSource rb.allOptions }))) := by
  simp only [RegistryBuilder.VerifyAndBuild, verifyAndBuild_issues]
  cases hpres : ErrIncorrectConfiguration.errorsPresent
      { MissingRequiredVariables := requiredAbsentNames rb.dataSource rb.allOptions,
        InvalidVariables := rejectedVariables rb.dataSource rb.allOptions } with
  | false =>
      rw [errorsPresent_eq_false] at hpres
      exact Or.inl ⟨hpres.1, hpres.2, by simp⟩
  | true =>
      refine Or.inr ⟨?_, by simp⟩
      by_contra hcon
      push_neg at hcon
      have hfalse := (errorsPresent_eq_false
        { MissingRequiredVariables := requiredAbsentNames rb.dataSource rb.allOptions,
          InvalidVariables := rejectedVariables rb.dataSource rb.allOptions }).2 hcon
      rw [hpres] at hfalse
      cases hfalse

/-! ## Theorems on the configuration registry -/

/-- C15: `VerifyAndBuild` returns a nil error exactly when every registered
required option is present in the data source and every registered option that
is present and has a validation function is accepted by it; it then returns the
registry over the registered names and the data source. Otherwise it returns
the zero `Registry` and an `ErrIncorrectConfiguration` that `errors.As`
extracts. -/
theorem C15_verifyAndBuild_succeeds_iff (rb : RegistryBuilder) :
    (rb.VerifyAndBuild.2 = none ↔
      (∀ o ∈ rb.allOptions, o.required = true → (rb.dataSource.getValue o.envName).2 = true)
      ∧ (∀ o ∈ rb.allOptions, ∀ fn, o.validationFn = some fn →
          (rb.dataSource.getValue o.envName).2 = true →
          fn (rb.dataSource.getValue o.envName).1 = none))
    ∧ (rb.VerifyAndBuild.2 = none →
        rb.VerifyAndBuild.1 =
          { registeredOptions := rb.registeredOptions, dataSource := some rb.dataSource })
    ∧ (rb.VerifyAndBuild.2 ≠ none →
        ∃ issues, rb.VerifyAndBuild = (Registry.zero, some (.incorrectConfiguration issues))
          ∧ errorsAsIncorrectConfiguration rb.VerifyAndBuild.2 = some issues) := by
  rcases verifyAndBuild_cases rb with ⟨hm, hi, hres⟩ | ⟨hne, hres⟩
  · refine ⟨⟨fun _ => ⟨?_, ?_⟩, fun _ => by rw [hres]⟩, fun _ => by rw [hres], ?_⟩
    · exact (requiredAbsentNames_eq_nil _ _).1 hm
    · exact (rejectedVariables_eq_nil _ _).1 hi
    · intro hcon
      rw [hres] at hcon
      exact absurd rfl hcon
  · refine ⟨⟨?_, ?_⟩, ?_, ?_⟩
    · intro hnil
      rw [hres] at hnil
      cases hnil
    · rintro ⟨h1, h2⟩
      rcases hne with hne | hne
      · exact absurd ((requiredAbsentNames_eq_nil _ _).2 h1) hne
      · exact absurd ((rejectedVariables_eq_nil _ _).2 h2) hne
    · intro hnil
      rw [hres] at hnil
      cases hnil
    · intro _
      exact ⟨_, hres, by rw [hres]; rfl⟩

/-- C15 witness: the failing sample builder yields an error that `errors.As`
extracts, the passing one a nil error. -/
theorem C15_verifyAndBuild_witness :
    (∃ issues, failingBuilder.VerifyAndBuild
        = (Registry.zero, some (.incorrectConfiguration issues))
      ∧ errorsAsIncorrectConfiguration failingBuilder.VerifyAndBuild.2 = some issues)
    ∧ passingBuilder.VerifyAndBuild.1 =
        { registeredOptions := passingBuilder.registeredOptions,
          dataSource := some passingBuilder.dataSource } :=
  ⟨(C15_verifyAndBuild_succeeds_iff failingBuilder).2.2 (by decide),
   (C15_verifyAndBuild_succeeds_iff passingBuilder).2.1 (by decide)⟩

/-- C16: when `VerifyAndBuild` fails, `MissingRequiredVariables` of its error is
the list of the names of the registered options that are required and absent
from the data source, in registration order; when the registered names are
pairwise distinct, as `AddOption` keeps them, the name of an optional option is
never listed and no name is listed twice. -/
theorem C16_missing_required_variables (rb : RegistryBuilder) (reg : Registry)
    (issues : ErrIncorrectConfiguration)
    (hfail : rb.VerifyAndBuild = (reg, some (.incorrectConfiguration issues))) :
    issues.MissingRequiredVariables =
        (rb.allOptions.filter
          (fun o => o.required && !(rb.dataSource.getValue o.envName).2)).map (fun o => o.envName)
    ∧ (∀ o ∈ rb.allOptions, o.required = false → (rb.allOptions.map (fun o => o.envName)).Nodup →
        o.envName ∉ issues.MissingRequiredVariables)
    ∧ ((rb.allOptions.map (fun o => o.envName)).Nodup → issues.MissingRequiredVariables.Nodup) := by
  have hm : issues.MissingRequiredVariables = requiredAbsentNames rb.dataSource rb.allOptions := by
    rcases verifyAndBuild_cases rb with ⟨_, _, hres⟩ | ⟨_, hres⟩
    · rw [hres] at hfail
      simp at hfail
    · rw [hres] at hfail
      simp only [Prod.mk.injEq, Option.some.injEq, ConfigError.incorrectConfiguration.injEq]
        at hfail
      rw [← hfail.2]
  refine ⟨hm, ?_, ?_⟩
  · intro o ho hopt hnodup hmem
    rw [hm] at hmem
    simp only [requiredAbsentNames, List.mem_map, List.mem_filter] at hmem
    obtain ⟨o1, ⟨ho1, hreq⟩, hname⟩ := hmem
    have heq : o1 = o := List.inj_on_of_nodup_map hnodup ho1 ho hname
    subst heq
    simp [hopt] at hreq
  · intro hnodup
    rw [hm]
    exact (hnodup.sublist (List.Sublist.map _ (List.filter_sublist _)))


/-- C16 witness: of the four sample options only `MY_OPTION` is required and
absent. -/
theorem C16_missing_required_witness :
    ["MY_OPTION"] =
        (failingBuilder.allOptions.filter
          (fun o => o.required && !(failingBuilder.dataSource.getValue o.envName).2)).map
          (fun o => o.envName) :=
  (C16_missing_required_variables failingBuilder Registry.zero
    { MissingRequiredVariables := ["MY_OPTION"],
      InvalidVariables :=
        [{ Name := "MUST_BE_CHOCOLATE", ValidationError := .plain 9 "must be a valid value" }] }
    rfl).1

theorem rejectedVariables_names_sublist (dataSource : registrySource)
    (options : List ConfigOption) :
    ((rejectedVariables dataSource options).map (fun entry => entry.Name)).Sublist
      (options.map (fun o => o.envName)) := by
  induction options with
  | nil => simp [rejectedVariables]
  | cons o rest ih =>
      simp only [rejectedVariables, List.filterMap_cons, List.map_cons] at ih ⊢
      cases hrej : rejectedVariable dataSource o with
      | none => exact List.Sublist.cons _ ih
      | some entry =>
          have hname : entry.Name = o.envName := by
            unfold rejectedVariable at hrej
            cases hp : (dataSource.getValue o.envName).2 <;> cases hf : o.validationFn <;>
              simp [hp, hf] at hrej
            obtain ⟨err, -, hentry⟩ := hrej
            rw [← hentry]
          simp only [List.map_cons, hname]
          exact List.Sublist.cons₂ _ ih

theorem mem_rejectedVariables (dataSource : registrySource) (options : List ConfigOption)
    (entry : InvalidVariable) :
    entry ∈ rejectedVariables dataSource options ↔
      ∃ o ∈ options, ∃ fn, (dataSource.getValue o.envName).2 = true
        ∧ o.validationFn = some fn
        ∧ fn (dataSource.getValue o.envName).1 = some entry.ValidationError
        ∧ entry.Name = o.envName := by
  simp only [rejectedVariables, List.mem_filterMap]
  constructor
  · rintro ⟨o, ho, hrej⟩
    refine ⟨o, ho, ?_⟩
    unfold rejectedVariable at hrej
    cases hp : (dataSource.getValue o.envName).2 <;> cases hf : o.validationFn <;>
      simp [hp, hf] at hrej
    obtain ⟨err, herr, hentry⟩ := hrej
    subst hentry
    exact ⟨_, rfl, rfl, herr, rfl⟩
  · rintro ⟨o, ho, fn, hp, hf, herr, hname⟩
    refine ⟨o, ho, ?_⟩
    obtain ⟨name, err⟩ := entry
    simp only at herr hname
    subst hname
    simp [rejectedVariable, hp, hf, herr]

/-- C17: when `VerifyAndBuild` fails, `InvalidVariables` of its error holds, in
registration order, one entry (name and validation error) for each registered
option that is present in the data source, has a validation function and is
rejected by it, required or not; every entry comes from a present variable, so
no absent variable is validated; when the registered names are pairwise
distinct, as `AddOption` keeps them, no name has two entries. -/
theorem C17_invalid_variables (rb : RegistryBuilder) (reg : Registry)
    (issues : ErrIncorrectConfiguration)
    (hfail : rb.VerifyAndBuild = (reg, some (.incorrectConfiguration issues))) :
    issues.InvalidVariables = rb.allOptions.filterMap (rejectedVariable rb.dataSource)
    ∧ (∀ entry, entry ∈ issues.InvalidVariables ↔
        ∃ o ∈ rb.allOptions, ∃ fn, (rb.dataSource.getValue o.envName).2 = true
          ∧ o.validationFn = some fn
          ∧ fn (rb.dataSource.getValue o.envName).1 = some entry.ValidationError
          ∧ entry.Name = o.envName)
    ∧ (∀ o ∈ rb.allOptions, (rb.dataSource.getValue o.envName).2 = false →
        rejectedVariable rb.dataSource o = none)
    ∧ ((rb.allOptions.map (fun o => o.envName)).Nodup →
        (issues.InvalidVariables.map (fun entry => entry.Name)).Nodup) := by
  have hi : issues.InvalidVariables = rejectedVariables rb.dataSource rb.allOptions := by
    rcases verifyAndBuild_cases rb with ⟨_, _, hres⟩ | ⟨_, hres⟩
    · rw [hres] at hfail
      simp at hfail
    · rw [hres] at hfail
      simp only [Prod.mk.injEq, Option.some.injEq, ConfigError.incorrectConfiguration.injEq]
        at hfail
      rw [← hfail.2]
  refine ⟨hi, ?_, ?_, ?_⟩
  · intro entry
    rw [hi]
    exact mem_rejectedVariables rb.dataSource rb.allOptions entry
  · intro o _ habsent
    simp [rejectedVariable, habsent]
  · intro hnodup
    rw [hi]
    exact hnodup.sublist (rejectedVariables_names_sublist rb.dataSource rb.allOptions)

/-- C17 witness: of the four sample options only `MUST_BE_CHOCOLATE` is
present and rejected; `NOT_HERE`, whose validation function rejects every
value, is absent and has no entry. -/
theorem C17_invalid_variables_witness :
    [({ Name := "MUST_BE_CHOCOLATE", ValidationError := .plain 9 "must be a valid value" } :
        InvalidVariable)]
      = failingBuilder.allOptions.filterMap (rejectedVariable failingBuilder.dataSource) :=
  (C17_invalid_variables failingBuilder Registry.zero
    { MissingRequiredVariables := ["MY_OPTION"],
      InvalidVariables :=
        [{ Name := "MUST_BE_CHOCOLATE", ValidationError := .plain 9 "must be a valid value" }] }
    rfl).1


/-- What a successful `AddOptions` leaves in the builder. -/
theorem addOptions_spec (options : List ConfigOption) (rb0 rb : RegistryBuilder)
    (hadd : rb0.AddOptions options = .ok rb) :
    rb.allOptions = rb0.allOptions ++ options
    ∧ rb.registeredOptions = rb0.registeredOptions ++ options.map (fun o => o.envName)
    ∧ rb.dataSource = rb0.dataSource
    ∧ (rb0.registeredOptions.Nodup → rb.registeredOptions.Nodup) := by
  induction options generalizing rb0 with
  | nil =>
      simp only [RegistryBuilder.AddOptions, Except.ok.injEq] at hadd
      subst hadd
      simp
  | cons o rest ih =>
      simp only [RegistryBuilder.AddOptions, RegistryBuilder.AddOption] at hadd
      by_cases hmem : o.envName ∈ rb0.registeredOptions
      · simp [hmem] at hadd
      · simp only [hmem, if_false] at hadd
        obtain ⟨h1, h2, h3, h4⟩ := ih _ hadd
        refine ⟨by simp [h1], by simp [h2], by simp [h3], ?_⟩
        intro hnodup
        apply h4
        simp only
        rw [List.nodup_append]
        refine ⟨hnodup, by simp, ?_⟩
        intro a ha hb
        simp only [List.mem_singleton] at hb
        subst hb
        exact hmem ha

/-- What a builder made by a constructor and `AddOption` calls holds. -/
theorem builtFrom_spec (rb : RegistryBuilder) (dataSource : registrySource)
    (options : List ConfigOption) (hbuilt : rb.BuiltFrom dataSource options) :
    rb.allOptions = options
    ∧ rb.registeredOptions = options.map (fun o => o.envName)
    ∧ rb.dataSource = dataSource
    ∧ (options.map (fun o => o.envName)).Nodup := by
  obtain ⟨h1, h2, h3, h4⟩ := addOptions_spec options _ rb hbuilt
  simp only [List.nil_append] at h1 h2 h3
  refine ⟨h1, h2, h3, ?_⟩
  rw [← h2]
  exact h4 List.nodup_nil

/-- The registry of a successful `VerifyAndBuild`. -/
theorem verifyAndBuild_ok (rb : RegistryBuilder) (reg : Registry)
    (hbuild : rb.VerifyAndBuild = (reg, none)) :
    reg = { registeredOptions := rb.registeredOptions, dataSource := some rb.dataSource } := by
  rcases verifyAndBuild_cases rb with ⟨_, _, hres⟩ | ⟨_, hres⟩
  · rw [hres] at hbuild
    simp only [Prod.mk.injEq, and_true] at hbuild
    exact hbuild.symm
  · rw [hres] at hbuild
    simp at hbuild

/-- C18: for a registry returned without error by `VerifyAndBuild` on a builder
made by a constructor over `dataSource` and `AddOption` calls for `options`,
`Get` panics exactly when no registered option has the name of the passed
option, and otherwise returns the pair the data source holds for that name; for
the map source a name that is not a key of the map, and for the environment
source a variable that is not set, yields the empty string and `false`. -/
theorem C18_get_panics_iff_unregistered (dataSource : registrySource)
    (options : List ConfigOption) (rb : RegistryBuilder) (reg : Registry)
    (hbuilt : rb.BuiltFrom dataSource options)
    (hbuild : rb.VerifyAndBuild = (reg, none)) (option : ConfigOption) :
    ((∃ msg, reg.Get option = .error msg) ↔ ¬ ∃ o ∈ options, o.envName = option.envName)
    ∧ ((∃ o ∈ options, o.envName = option.envName) →
        reg.Get option = .ok (dataSource.getValue option.envName))
    ∧ (∀ vars, dataSource = mockRegistrySource vars →
        (∃ o ∈ options, o.envName = option.envName) →
        option.envName ∉ vars.map Prod.fst →
        reg.Get option = .ok ("", false))
    ∧ (∀ environ, dataSource = environmentRegistrySource environ →
        (∃ o ∈ options, o.envName = option.envName) →
        environ option.envName = none →
        reg.Get option = .ok ("", false)) := by
  obtain ⟨-, hreg, hsrc, -⟩ := builtFrom_spec rb dataSource options hbuilt
  have hregistry := verifyAndBuild_ok rb reg hbuild
  subst hregistry
  have hget : (∃ o ∈ options, o.envName = option.envName) →
      Registry.Get { registeredOptions := rb.registeredOptions, dataSource := some rb.dataSource }
        option = .ok (dataSource.getValue option.envName) := by
    intro hex
    have hmem : option.envName ∈ rb.registeredOptions := by
      rw [hreg]
      simpa using hex
    simp [Registry.Get, hmem, hsrc]
  refine ⟨⟨?_, ?_⟩, hget, ?_, ?_⟩
  · rintro ⟨msg, hmsg⟩ hex
    rw [hget hex] at hmsg
    cases hmsg
  · intro hno
    have hmem : option.envName ∉ rb.registeredOptions := by
      rw [hreg]
      simpa using hno
    exact ⟨_, by rw [Registry.Get, if_neg hmem]⟩
  · intro vars hvars hex habsent
    rw [hget hex, hvars]
    have hlookup : vars.lookup option.envName = none := by
      rw [List.lookup_eq_none_iff]
      intro p hp
      rw [bne_iff_ne]
      intro hkey
      exact habsent (List.mem_map.2 ⟨p, hp, hkey.symm⟩)
    simp [mockRegistrySource, hlookup]
  · intro environ henv hex hunset
    rw [hget hex, henv]
    simp [environmentRegistrySource, hunset]

/-- C18 witness: on the passing sample registry the present `OTHER_OPTION`
yields its value, the absent `NOT_HERE` yields `false`, and the unregistered
`MY_OPTION` panics. -/
theorem C18_get_witness :
    Registry.Get passingBuilder.VerifyAndBuild.1 otherOption = .ok ("abcde", true)
    ∧ Registry.Get passingBuilder.VerifyAndBuild.1 notHereOption = .ok ("", false)
    ∧ ∃ msg, Registry.Get passingBuilder.VerifyAndBuild.1 myOption = .error msg :=
  ⟨(C18_get_panics_iff_unregistered (mockRegistrySource sampleVariables)
      [otherOption, notHereOption] passingBuilder passingBuilder.VerifyAndBuild.1 rfl rfl
      otherOption).2.1 ⟨otherOption, by simp, rfl⟩,
   (C18_get_panics_iff_unregistered (mockRegistrySource sampleVariables)
      [otherOption, notHereOption] passingBuilder passingBuilder.VerifyAndBuild.1 rfl rfl
      notHereOption).2.2.1 sampleVariables rfl ⟨notHereOption, by simp, rfl⟩ (by decide),
   ((C18_get_panics_iff_unregistered (mockRegistrySource sampleVariables)
      [otherOption, notHereOption] passingBuilder passingBuilder.VerifyAndBuild.1 rfl rfl
      myOption).1).2 (by
        rintro ⟨o, ho, hname⟩
        simp only [List.mem_cons, List.mem_singleton, List.not_mem_nil, or_false] at ho
        rcases ho with rfl | rfl <;> exact absurd hname (by decide))⟩


/-- The result of `Get` on the registry of a successful build. -/
theorem get_of_built (dataSource : registrySource) (options : List ConfigOption)
    (rb : RegistryBuilder) (reg : Registry)
    (hbuilt : rb.BuiltFrom dataSource options)
    (hbuild : rb.VerifyAndBuild = (reg, none)) (option : ConfigOption) :
    reg.Get option =
      if option.envName ∈ options.map (fun o => o.envName) then
        .ok (dataSource.getValue option.envName)
      else
        .error ("Option " ++ option.envName
          ++ " is not registered! Make sure to register it when building the option registry.")
    := by
  obtain ⟨-, hreg, hsrc, -⟩ := builtFrom_spec rb dataSource options hbuilt
  have hregistry := verifyAndBuild_ok rb reg hbuild
  subst hregistry
  simp only [Registry.Get, hreg, hsrc]

/-- C19: on a registry returned without error by `VerifyAndBuild` (builder made
by a constructor over `dataSource` and `AddOption` calls for `options`),
`GetRequired` panics for every option that is not required and for every option
whose name is not registered; for a required option whose name is registered it
returns the value the data source holds for that name, the string `Get`
returns. -/
theorem C19_getRequired_panics_or_returns_value (dataSource : registrySource)
    (options : List ConfigOption) (rb : RegistryBuilder) (reg : Registry)
    (hbuilt : rb.BuiltFrom dataSource options)
    (hbuild : rb.VerifyAndBuild = (reg, none)) (option : ConfigOption) :
    (option.required = false → ∃ msg, reg.GetRequired option = .error msg)
    ∧ ((¬ ∃ o ∈ options, o.envName = option.envName) →
        ∃ msg, reg.GetRequired option = .error msg)
    ∧ (option.required = true → (∃ o ∈ options, o.envName = option.envName) →
        reg.GetRequired option = .ok (dataSource.getValue option.envName).1
        ∧ ∃ present,
            reg.Get option = .ok ((dataSource.getValue option.envName).1, present)) := by
  have hget := get_of_built dataSource options rb reg hbuilt hbuild option
  refine ⟨?_, ?_, ?_⟩
  · intro hopt
    exact ⟨_, by rw [Registry.GetRequired, hopt]; rfl⟩
  · intro hno
    have hmem : option.envName ∉ options.map (fun o => o.envName) := by simpa using hno
    rw [if_neg hmem] at hget
    cases hreq : option.required with
    | false => exact ⟨_, by rw [Registry.GetRequired, hreq]; rfl⟩
    | true => exact ⟨_, by rw [Registry.GetRequired, hreq, hget]; rfl⟩
  · intro hreq hex
    have hmem : option.envName ∈ options.map (fun o => o.envName) := by simpa using hex
    rw [if_pos hmem] at hget
    refine ⟨?_, (dataSource.getValue option.envName).2, ?_⟩
    · rw [Registry.GetRequired, hreq, hget]
      rfl
    · rw [hget]

/-- C19 witness: on a registry built from the required `MY_OPTION` and the
optional `OTHER_OPTION`, both present, `GetRequired` returns the value of the
first and panics for the second. -/
theorem C19_getRequired_witness :
    Registry.GetRequired
        (RegistryBuilder.VerifyAndBuild
          { registeredOptions := ["MY_OPTION", "OTHER_OPTION"],
            allOptions := [myOption, otherOption],
            dataSource := mockRegistrySource [("MY_OPTION", "wxyz"), ("OTHER_OPTION", "abcde")] }).1
        myOption = .ok "wxyz"
    ∧ ∃ msg, Registry.GetRequired
        (RegistryBuilder.VerifyAndBuild
          { registeredOptions := ["MY_OPTION", "OTHER_OPTION"],
            allOptions := [myOption, otherOption],
            dataSource := mockRegistrySource [("MY_OPTION", "wxyz"), ("OTHER_OPTION", "abcde")] }).1
        otherOption = .error msg :=
  ⟨((C19_getRequired_panics_or_returns_value
      (mockRegistrySource [("MY_OPTION", "wxyz"), ("OTHER_OPTION", "abcde")])
      [myOption, otherOption] _ _ rfl rfl myOption).2.2 rfl ⟨myOption, by simp, rfl⟩).1,
   (C19_getRequired_panics_or_returns_value
      (mockRegistrySource [("MY_OPTION", "wxyz"), ("OTHER_OPTION", "abcde")])
      [myOption, otherOption] _ _ rfl rfl otherOption).1 rfl⟩

/-- C20: on a builder made by a constructor and `AddOption` calls for
`options`, `AddOption` panics exactly when one of `options` has the name of the
new option; otherwise it appends the option after `options` and adds its name to
the registered names, and the names of the options held stay pairwise distinct,
as they are before the call. -/
theorem C20_addOption_rejects_duplicates (dataSource : registrySource)
    (options : List ConfigOption) (rb : RegistryBuilder)
    (hbuilt : rb.BuiltFrom dataSource options) (option : ConfigOption) :
    ((∃ msg, rb.AddOption option = .error msg) ↔ ∃ o ∈ options, o.envName = option.envName)
    ∧ ((¬ ∃ o ∈ options, o.envName = option.envName) →
        ∃ rb1, rb.AddOption option = .ok rb1
          ∧ rb1.allOptions = options ++ [option]
          ∧ rb1.registeredOptions = rb.registeredOptions ++ [option.envName]
          ∧ rb1.dataSource = dataSource
          ∧ (rb1.allOptions.map (fun o => o.envName)).Nodup)
    ∧ rb.allOptions = options
    ∧ (rb.allOptions.map (fun o => o.envName)).Nodup := by
  obtain ⟨hall, hreg, hsrc, hnodup⟩ := builtFrom_spec rb dataSource options hbuilt
  have hiff : option.envName ∈ rb.registeredOptions ↔ ∃ o ∈ options, o.envName = option.envName
      := by
    rw [hreg]
    simp
  refine ⟨⟨?_, ?_⟩, ?_, hall, by rw [hall]; exact hnodup⟩
  · rintro ⟨msg, hmsg⟩
    by_contra hno
    have hmem : option.envName ∉ rb.registeredOptions := fun h => hno (hiff.1 h)
    rw [RegistryBuilder.AddOption, if_neg hmem] at hmsg
    cases hmsg
  · intro hex
    exact ⟨_, by rw [RegistryBuilder.AddOption, if_pos (hiff.2 hex)]⟩
  · intro hno
    have hmem : option.envName ∉ rb.registeredOptions := fun h => hno (hiff.1 h)
    refine ⟨{ rb with
                registeredOptions := rb.registeredOptions ++ [option.envName]
                allOptions := rb.allOptions ++ [option] },
      by rw [RegistryBuilder.AddOption, if_neg hmem], by simp [hall], rfl, hsrc, ?_⟩
    simp only [hall, List.map_append, List.map_cons, List.map_nil]
    rw [List.nodup_append]
    refine ⟨hnodup, by simp, ?_⟩
    intro a ha hb
    simp only [List.mem_singleton] at hb
    subst hb
    rw [hreg] at hmem
    exact hmem ha

/-- C20 witness: after `MY_OPTION` has been added, adding it again panics and
adding `OTHER_OPTION` appends it. -/
theorem C20_addOption_witness :
    (∃ msg, RegistryBuilder.AddOption
        { registeredOptions := ["MY_OPTION"], allOptions := [myOption],
          dataSource := mockRegistrySource [("MY_OPTION", "abcde")] } myOption = .error msg)
    ∧ ∃ rb1, RegistryBuilder.AddOption
        { registeredOptions := ["MY_OPTION"], allOptions := [myOption],
          dataSource := mockRegistrySource [("MY_OPTION", "abcde")] } otherOption = .ok rb1
      ∧ rb1.allOptions = [myOption] ++ [otherOption]
      ∧ rb1.registeredOptions = ["MY_OPTION"] ++ [otherOption.envName]
      ∧ rb1.dataSource = mockRegistrySource [("MY_OPTION", "abcde")]
      ∧ (rb1.allOptions.map (fun o => o.envName)).Nodup :=
  ⟨((C20_addOption_rejects_duplicates (mockRegistrySource [("MY_OPTION", "abcde")])
      [myOption] _ rfl myOption).1).2 ⟨myOption, by simp, rfl⟩,
   (C20_addOption_rejects_duplicates (mockRegistrySource [("MY_OPTION", "abcde")])
      [myOption] _ rfl otherOption).2.1 (by
        rintro ⟨o, ho, hname⟩
        simp only [List.mem_singleton] at ho
        subst ho
        exact absurd hname (by decide))⟩

end Config

namespace Database

/-! ## Theorems on the connection pool settings -/

/-- C21 (defect in the code): with `MaxOpenConnections` provided as 50, `Connect`
panics when `MaxIdleConnections` is not provided, and sets the maximum number of
open connections to the idle limit 10, not to 50, when it is; only without
`MaxOpenConnections` do the limits come out as 20 and the idle setting. -/
theorem C21_connect_reads_idle_limit_for_open_limit :
    Connect (sampleConfig (some 50) none) none = .error nilDerefMsg
    ∧ Connect (sampleConfig (some 50) (some 10)) none =
        .ok (some { dataSourceName := "user:secret@tcp(localhost)/greetings",
                    connMaxLifetimeMinutes := 3, maxIdleConns := 10, maxOpenConns := 10 },
          none)
    ∧ Connect (sampleConfig none (some 10)) none =
        .ok (some { dataSourceName := "user:secret@tcp(localhost)/greetings",
                    connMaxLifetimeMinutes := 3, maxIdleConns := 10, maxOpenConns := 20 },
          none) := by
  exact ⟨rfl, rfl, rfl⟩

end Database

namespace Types

open Database (GoError)

/-! ## Theorems on nullable values -/

/-- C22 (as stated, refuted): a receiver that holds the present value `true` still
has `IsPresent = true` after `UnmarshalJSON` of the literal `null`, which
returns no error. -/
theorem C22_counterexample :
    Nullable.UnmarshalJSON boolCodec { Value := true, IsPresent := true } "null"
        = ({ Value := true, IsPresent := true }, none)
    ∧ (Nullable.UnmarshalJSON boolCodec { Value := true, IsPresent := true } "null").1.IsPresent
        ≠ false := by
  decide

/-- C22 (amended): for every receiver, `UnmarshalJSON` of the literal `null`
returns no error and leaves the receiver as it was; so a receiver that was not
present, such as the zero value, has `IsPresent = false` afterwards. -/
theorem C22_unmarshal_null_leaves_receiver {T : Type} (json : JSONCodec T)
    (nullable : Nullable T) :
    Nullable.UnmarshalJSON json nullable "null" = (nullable, none)
    ∧ (nullable.IsPresent = false →
        (Nullable.UnmarshalJSON json nullable "null").1.IsPresent = false) := by
  have h : Nullable.UnmarshalJSON json nullable "null" = (nullable, none) := by
    simp [Nullable.UnmarshalJSON]
  exact ⟨h, fun hp => by rw [h]; exact hp⟩

/-- C22 witness: the zero value of `Nullable[bool]` stays not present. -/
theorem C22_unmarshal_null_witness :
    Nullable.UnmarshalJSON boolCodec { Value := false, IsPresent := false } "null"
        = ({ Value := false, IsPresent := false }, none)
    ∧ (Nullable.UnmarshalJSON boolCodec { Value := false, IsPresent := false } "null").1.IsPresent
        = false :=
  ⟨(C22_unmarshal_null_leaves_receiver boolCodec { Value := false, IsPresent := false }).1,
   (C22_unmarshal_null_leaves_receiver boolCodec { Value := false, IsPresent := false }).2 rfl⟩

/-- C23 (as stated, refuted): for `Nullable[*bool]` holding a present nil
pointer, `json` encodes the pointer as `null` and decodes `null` back to the nil
pointer, yet `UnmarshalJSON` of the bytes `MarshalJSON` produced leaves a fresh
receiver not present: the round trip does not give the value back. -/
theorem C23_counterexample :
    Nullable.MarshalJSON boolPointerCodec { Value := none, IsPresent := true } = .ok "null"
    ∧ boolPointerCodec.Unmarshal "null" = .ok none
    ∧ Nullable.UnmarshalJSON boolPointerCodec { Value := none, IsPresent := false } "null"
        = ({ Value := none, IsPresent := false }, none)
    ∧ (Nullable.UnmarshalJSON boolPointerCodec { Value := none, IsPresent := false } "null").1
        ≠ { Value := none, IsPresent := true } := by
  refine ⟨rfl, rfl, rfl, ?_⟩
  decide

/-- C23 (amended): a `Nullable` that is not present is marshalled to the bytes
`null` with no error, whatever its value; a present one to the result of
`json.Marshal` on its value; and when the encoding of a present value `v` is not
the literal `null` and `json` decodes it back to `v`, `UnmarshalJSON` of the
bytes `MarshalJSON` produced leaves any receiver equal to `Nullable{v, true}`,
with no error. -/
theorem C23_marshal_and_round_trip {T : Type} (json : JSONCodec T) :
    (∀ n : Nullable T, n.IsPresent = false → Nullable.MarshalJSON json n = .ok "null")
    ∧ (∀ n : Nullable T, n.IsPresent = true →
        Nullable.MarshalJSON json n = json.Marshal n.Value)
    ∧ (∀ (v : T) (bytes : String) (receiver : Nullable T),
        json.Marshal v = .ok bytes → bytes ≠ "null" → json.Unmarshal bytes = .ok v →
        Nullable.MarshalJSON json { Value := v, IsPresent := true } = .ok bytes
        ∧ Nullable.UnmarshalJSON json receiver bytes
            = ({ Value := v, IsPresent := true }, none)) := by
  refine ⟨?_, ?_, ?_⟩
  · intro n hn
    simp [Nullable.MarshalJSON, hn]
  · intro n hn
    simp [Nullable.MarshalJSON, hn]
  · intro v bytes receiver hmarshal hnull hunmarshal
    refine ⟨by simp [Nullable.MarshalJSON, hmarshal], ?_⟩
    simp [Nullable.UnmarshalJSON, hnull, hunmarshal]

/-- C23 witness: the present value `true` of `Nullable[bool]` is marshalled to
`true` and comes back from a receiver that held something else. -/
theorem C23_marshal_and_round_trip_witness :
    Nullable.MarshalJSON boolCodec { Value := true, IsPresent := false } = .ok "null"
    ∧ Nullable.MarshalJSON boolCodec { Value := true, IsPresent := true } = .ok "true"
    ∧ Nullable.UnmarshalJSON boolCodec { Value := false, IsPresent := false } "true"
        = ({ Value := true, IsPresent := true }, none) :=
  ⟨(C23_marshal_and_round_trip boolCodec).1 { Value := true, IsPresent := false } rfl,
   ((C23_marshal_and_round_trip boolCodec).2.2 true "true"
      { Value := false, IsPresent := false } rfl (by decide) rfl).1,
   ((C23_marshal_and_round_trip boolCodec).2.2 true "true"
      { Value := false, IsPresent := false } rfl (by decide) rfl).2⟩

end Types

namespace Sample

open Database (GoError Context Connection RetrieveFromContext errorsIs errorsIsLoop
  errorsIsLoop_self mockConnectionCtx)

/-! ## Theorems on the greetings -/

/-- The function `errors.Is` finds the error wrapped with one `%w` verb. -/
theorem errorsIs_wrapError (msg : String) (e : GoError) :
    errorsIs (some (.wrapError msg e)) (some e) = true := by
  simp [errorsIs, errorsIsLoop, errorsIsLoop_self]

/-- C24: when `List` succeeds with `L` and the greeting is in `L`,
`CoreLogic.AddGreeting` returns an error in which `errors.Is` finds
`ErrGreetingAlreadyExists`, and the only port call made is `List`; when the
greeting is not in `L`, the calls made are `List` and then one `AddGreeting` of
the writer with that greeting, whose result is returned as it is; when `List`
fails, the only call is `List` and `errors.Is` finds its error in the result. -/
theorem C24_addGreeting_checks_duplicates (ctx : Context) (newGreeting : String)
    (greetingReader : GreetingReader) (greetingWriter : GreetingWriter)
    (calls : List PortCall) :
    (∀ L, greetingReader.List ctx calls = (L, none) → newGreeting ∈ L →
        ∃ err, CoreLogic.AddGreeting ctx newGreeting greetingReader greetingWriter calls
            = (some err, calls ++ [.list ctx])
          ∧ errorsIs (some err) (some ErrGreetingAlreadyExists) = true)
    ∧ (∀ L, greetingReader.List ctx calls = (L, none) → newGreeting ∉ L →
        CoreLogic.AddGreeting ctx newGreeting greetingReader greetingWriter calls
          = (greetingWriter.AddGreeting ctx newGreeting (calls ++ [.list ctx]),
              calls ++ [.list ctx] ++ [.addGreeting ctx newGreeting]))
    ∧ (∀ L e, greetingReader.List ctx calls = (L, some e) →
        ∃ err, CoreLogic.AddGreeting ctx newGreeting greetingReader greetingWriter calls
            = (some err, calls ++ [.list ctx])
          ∧ errorsIs (some err) (some e) = true) := by
  refine ⟨?_, ?_, ?_⟩
  · intro L hlist hmem
    refine ⟨_, by simp only [CoreLogic.AddGreeting, hlist, if_pos hmem]; rfl, ?_⟩
    exact errorsIs_wrapError _ _
  · intro L hlist hmem
    simp only [CoreLogic.AddGreeting, hlist, if_neg hmem]
  · intro L e hlist
    refine ⟨_, by simp only [CoreLogic.AddGreeting, hlist]; rfl, ?_⟩
    exact errorsIs_wrapError _ _

/-- C24 witness: over the three sample greetings, adding `Hi` is refused
without a call to the writer, and adding `Hey` calls the failing writer once and
returns its error. -/
theorem C24_addGreeting_witness :
    (∃ err, CoreLogic.AddGreeting .background "Hi" sampleReader failingWriter []
        = (some err, [] ++ [.list .background])
      ∧ errorsIs (some err) (some ErrGreetingAlreadyExists) = true)
    ∧ CoreLogic.AddGreeting .background "Hey" sampleReader failingWriter []
        = (some (.plain 2 "write failed"),
            [] ++ [.list .background] ++ [.addGreeting .background "Hey"]) :=
  ⟨(C24_addGreeting_checks_duplicates .background "Hi" sampleReader failingWriter []).1
      ["Hi", "Hello", "Howdy"] rfl (by decide),
   (C24_addGreeting_checks_duplicates .background "Hey" sampleReader failingWriter []).2.1
      ["Hi", "Hello", "Howdy"] rfl (by decide)⟩

/-- C25 (defect in the code): on a context that resolves to a handle, when
`Select` succeeds with the empty list `RandomGreeting` does not return: it
panics in `rand.Intn(0)`, whatever the state of the generator; when `Select`
fails on the same context it returns the error without panicking. -/
theorem C25_randomGreeting_panics_on_empty_list :
    RetrieveFromContext mockConnectionCtx = .ok (.mock 9)
    ∧ DatabaseGreetingReader.List (fun _ => ([], none)) mockConnectionCtx = .ok ([], none)
    ∧ DatabaseGreetingReader.RandomGreeting (fun _ => ([], none)) 3 mockConnectionCtx
        = .error "invalid argument to Intn"
    ∧ (∀ seed, DatabaseGreetingReader.RandomGreeting (fun _ => ([], none)) seed
        mockConnectionCtx = .error "invalid argument to Intn")
    ∧ DatabaseGreetingReader.RandomGreeting (fun _ => ([], some (.plain 1 "oops"))) 3
        mockConnectionCtx
        = .ok ("", some (.wrapError "could not get list of greetings: oops" (.plain 1 "oops")))
    := by
  exact ⟨rfl, rfl, rfl, fun _ => rfl, rfl⟩

/-- On a context that resolves to a handle, when `Select` fails `RandomGreeting`
returns an error (in which `errors.Is` finds the error of `Select`); when
`Select` succeeds with a list that is not empty, `RandomGreeting` returns,
without panicking, an element of the list and a nil error. -/
theorem randomGreeting_of_nonempty_list (ctx : Context) (db : Connection)
    (selectGreetings : Connection → Strings × Option GoError) (seed : Nat)
    (hconn : RetrieveFromContext ctx = .ok db) :
    (∀ rs e, selectGreetings db = (rs, some e) →
        ∃ err, DatabaseGreetingReader.RandomGreeting selectGreetings seed ctx
            = .ok ("", some err)
          ∧ errorsIs (some err) (some e) = true)
    ∧ (∀ L, selectGreetings db = (L, none) → L ≠ [] →
        ∃ greeting, DatabaseGreetingReader.RandomGreeting selectGreetings seed ctx
            = .ok (greeting, none)
          ∧ greeting ∈ L) := by
  refine ⟨?_, ?_⟩
  · intro rs e hsel
    refine ⟨_, by simp only [DatabaseGreetingReader.RandomGreeting,
      DatabaseGreetingReader.List, hconn, hsel]; rfl, ?_⟩
    exact errorsIs_wrapError _ _
  · intro L hsel hne
    have hlen : L.length ≠ 0 := by
      intro h
      exact hne (List.length_eq_zero.1 h)
    have hlt : seed % L.length < L.length := Nat.mod_lt _ (Nat.pos_of_ne_zero hlen)
    refine ⟨L[seed % L.length], ?_, List.getElem_mem _⟩
    simp only [DatabaseGreetingReader.RandomGreeting, DatabaseGreetingReader.List, hconn, hsel,
      randIntn, if_neg hlen, List.getElem?_eq_getElem hlt]

end Sample

namespace Controller

/-! ## Theorems on the log level request -/

/-- C26: `ChangeLogLevelRequest.Validate` returns no error exactly when
`NewLevel` is one of debug, info, warn, error, panic, fatal; for the empty
`NewLevel` it returns the error `ErrRequired`, whose code is
`validation_required`, under the field name `NewLevel`. -/
theorem C26_validate_accepts_exactly_the_levels (req : ChangeLogLevelRequest) :
    (req.Validate = none ↔
        req.NewLevel ∈ ["debug", "info", "warn", "error", "panic", "fatal"])
    ∧ ChangeLogLevelRequest.Validate { NewLevel := "" }
        = some [("NewLevel", Validation.ErrRequired)]
    ∧ Validation.ErrRequired.code = "validation_required" := by
  refine ⟨?_, by decide, rfl⟩
  obtain ⟨level⟩ := req
  by_cases hempty : level = ""
  · subst hempty
    decide
  · by_cases hmem : level ∈ ["debug", "info", "warn", "error", "panic", "fatal"]
    · simp [ChangeLogLevelRequest.Validate, Validation.ValidateStruct, Validation.Validate,
        Validation.Rule.Validate, Validation.Required, Validation.In, Validation.Rule.Error,
        hempty, hmem]
    · simp only [hmem, iff_false]
      simp [ChangeLogLevelRequest.Validate, Validation.ValidateStruct, Validation.Validate,
        Validation.Rule.Validate, Validation.Required, Validation.In, Validation.Rule.Error,
        hempty, hmem]

end Controller

namespace Middleware

open Config

/-! ## Theorems on the CORS middleware -/

/-- C27 (defect in the code): on a registry built with `AllowedOrigins`
registered and `ALLOWED_CORS_ORIGINS` absent from the environment,
`CorsMiddleware` allows the single origin `http://localhost:8080`; no allowed
origin is `localhost:3000`, with or without the scheme. -/
theorem C27_default_origin_is_localhost_8080 :
    absentOriginsBuilder.BuiltFrom (mockRegistrySource []) [Sharedoptions.AllowedOrigins]
    ∧ absentOriginsBuilder.VerifyAndBuild.2 = none
    ∧ Registry.Get absentOriginsBuilder.VerifyAndBuild.1 Sharedoptions.AllowedOrigins
        = .ok ("", false)
    ∧ CorsMiddleware absentOriginsBuilder.VerifyAndBuild.1 =
        .ok { AllowOrigins := ["http://localhost:8080"],
              AllowMethods := ["GET", "HEAD", "PUT", "PATCH", "POST", "DELETE"],
              AllowHeaders := ["Content-Type", "Authorization"],
              AllowCredentials := true }
    ∧ "localhost:3000" ∉ ["http://localhost:8080"]
    ∧ "http://localhost:3000" ∉ ["http://localhost:8080"] := by
  refine ⟨rfl, by decide, rfl, rfl, by decide, by decide⟩

end Middleware

namespace Database

/-! ## Theorems on the handle of a mock connection -/

/-- C28 (defect in the code): on the context with a mock connection attached,
which is not a mock request context and on which `RetrieveFromContext`
succeeds, `prepareTransactionContext` takes none of the three paths: it returns
the zero prepared context with a nil context to pass and a nil transaction, so
the operation is run on a nil context and, when it returns, finalization
panics on the nil transaction, for a succeeding and for a failing operation. -/
theorem C28_mock_connection_handle_falls_through :
    IsMockContext mockConnectionCtx = false
    ∧ RetrieveFromContext mockConnectionCtx = .ok (.mock 9)
    ∧ prepareTransactionContext (sampleDriver true true true) mockConnectionCtx emptyWorld
        = .ret ({ transaction := none, passedContext := none, isNestedTransaction := false,
                  isMockContext := false }, none) emptyWorld
    ∧ WithTransaction (sampleDriver true true true) mockConnectionCtx nilProbeOperation emptyWorld
        = .panic "operation received a nil context" emptyWorld
    ∧ WithTransaction (sampleDriver true true true) mockConnectionCtx okErrOperation emptyWorld
        = .panic nilDerefMsg emptyWorld
    ∧ WithTransaction (sampleDriver true true true) mockConnectionCtx failingErrOperation
        emptyWorld = .panic nilDerefMsg emptyWorld
    ∧ WithTransactionReturning (sampleDriver true true true) mockConnectionCtx okOperation
        emptyWorld = .panic nilDerefMsg emptyWorld := by
  refine ⟨rfl, rfl, rfl, rfl, rfl, rfl, rfl⟩

end Database

namespace Config

/-! ## Theorems on required options -/

/-- C29 (defect in the code): on the registry built from the optional options
`OTHER_OPTION` and `NOT_HERE` over an environment in which `NOT_HERE` is absent,
`GetRequired` of a required option named `NOT_HERE` does not panic and returns
the empty string of the absent variable. -/
theorem C29_getRequired_returns_absent_default :
    passingBuilder.BuiltFrom (mockRegistrySource sampleVariables) [otherOption, notHereOption]
    ∧ passingBuilder.VerifyAndBuild.2 = none
    ∧ (mockRegistrySource sampleVariables).getValue "NOT_HERE" = ("", false)
    ∧ Registry.GetRequired passingBuilder.VerifyAndBuild.1 (NewOption "NOT_HERE" true)
        = .ok "" := by
  refine ⟨rfl, by decide, rfl, rfl⟩

end Config

namespace Logger

open Database (GoError)
open Config

/-! ## Theorems on the log level -/

/-- C30 (defect in the code): the validation function of `LogLevel` accepts the
empty string, which `LevelFromString` does not convert; on the registry built
with `LogLevel` and `IsInProduction` registered over an environment in which
`LOG_LEVEL` is set to the empty string, `InitLoggerFromConfig` returns the error
that starts with `invalid log level bypassed validation`. -/
theorem C30_empty_log_level_bypasses_validation :
    Sharedoptions.LogLevel.validationFn.map (fun validationFn => validationFn "") = some none
    ∧ LevelFromString "" = (0, some (.plain 500 "not a valid log level: "))
    ∧ emptyLevelBuilder.BuiltFrom
        (mockRegistrySource [("LOG_LEVEL", ""), ("IS_PRODUCTION", "true")])
        [Sharedoptions.LogLevel, Sharedoptions.IsInProduction]
    ∧ emptyLevelBuilder.VerifyAndBuild.2 = none
    ∧ InitLoggerFromConfig (fun _ _ => none) emptyLevelBuilder.VerifyAndBuild.1
        = .ok (some (.wrapError
            "invalid log level bypassed validation:  cause: not a valid log level: "
            (.plain 500 "not a valid log level: "))) := by
  refine ⟨rfl, rfl, rfl, by decide, rfl⟩

end Logger
